import Mathlib

set_option maxRecDepth 100000

/-!
Verification of the indicator / scoring core of a stock-analysis dashboard.

The Python source is shallowly embedded: DataFrames of daily OHLCV bars become
`List Bar` with exact rational (`ℚ`) prices in place of IEEE floats, pandas
rolling windows become explicit window functions, and the stateful per-symbol
scan loop becomes a pure function that also returns the trace of callback
events.  Outputs of the external `pandas_ta` library (RSI / MACD / stochastic
read at the last bar) are taken as oracle parameters of type `Option ℚ`
(`none` models a NaN reading), matching the specification's treatment of those
indicators as externally computed inputs.
-/

/- ═════════════════════ numeric preliminaries ═════════════════════ -/

/-- Python's banker's rounding (`round`) on an exact rational: round to the
nearest integer, ties to the even integer.  The binary-float representation
error of CPython's `round` on floats is abstracted away by working in `ℚ`. -/
def pyRoundInt (q : ℚ) : ℤ :=
  if q - ⌊q⌋ = 1 / 2 then (if Even ⌊q⌋ then ⌊q⌋ else ⌊q⌋ + 1) else round q

/-- Python `round(q, 2)` (two decimal places, ties to even). -/
def round2 (q : ℚ) : ℚ := (pyRoundInt (q * 100) : ℚ) / 100

/-- Python `int(q)`: truncation toward zero. -/
def pyTrunc (q : ℚ) : ℤ := if 0 ≤ q then ⌊q⌋ else ⌈q⌉

/-- pandas `Series.clip(lo, hi)` on a single value. -/
def clip (lo hi x : ℚ) : ℚ := max lo (min hi x)

/- ═════════════════════ list / window helpers ═════════════════════ -/

/-- Arithmetic mean of a list (`Series.mean`); the mean of an empty list is
junk (`0`), only ever used behind the source's own emptiness guards. -/
def listMean (l : List ℚ) : ℚ := l.sum / l.length

/-- The trailing window of length `p` ending at index `i` (inclusive), the
set of values a pandas `rolling(p)` aggregation sees at row `i`. -/
def windowEnd (l : List ℚ) (p i : ℕ) : List ℚ :=
  (l.take (i + 1)).drop (i + 1 - p)

/-- pandas `rolling(p).mean()` at row `i`: `none` models the NaN produced for
the first `p - 1` rows. -/
def rollingMean (l : List ℚ) (p i : ℕ) : Option ℚ :=
  if 0 < p ∧ p ≤ i + 1 ∧ i < l.length then some (listMean (windowEnd l p i)) else none

/-- pandas `rolling(p).min()` at row `i`. -/
def rollingMin (l : List ℚ) (p i : ℕ) : Option ℚ :=
  if 0 < p ∧ p ≤ i + 1 ∧ i < l.length then (windowEnd l p i).min? else none

/-- pandas `rolling(p).max()` at row `i`. -/
def rollingMax (l : List ℚ) (p i : ℕ) : Option ℚ :=
  if 0 < p ∧ p ≤ i + 1 ∧ i < l.length then (windowEnd l p i).max? else none

/- ═════════════════════ the Bar data model ═════════════════════ -/

/-- One daily OHLCV row.  `date` is an abstract day ordinal (calendar-date
strings and `strftime` formatting are presentation-layer and abstracted);
prices and volume are exact rationals. -/
structure Bar where
  date : ℕ
  open_ : ℚ
  high : ℚ
  low : ℚ
  close : ℚ
  volume : ℚ
  deriving Repr, DecidableEq, Inhabited

def closesOf (df : List Bar) : List ℚ := df.map (·.close)
def volsOf (df : List Bar) : List ℚ := df.map (·.volume)

/-- `df["close"].iloc[i]` (0-based position). -/
def closeAt (df : List Bar) (i : ℕ) : ℚ := (closesOf df).getD i 0

/-- `df.iloc[i]` as a whole row. -/
def barAt (df : List Bar) (i : ℕ) : Bar := df.getD i default

/-- Rolling close mean read at the final row, i.e. the latest `p`-day SMA. -/
def maLast (df : List Bar) (p : ℕ) : Option ℚ :=
  rollingMean (closesOf df) p (df.length - 1)

/- ═════════════ utils.py : compute_kd (lines 145-179) ═════════════
`compute_ma` is embedded only in the heap model below (its numeric content is
exactly `rollingMean`); `compute_kd` is embedded here in full. -/

/-- The RSV series of `compute_kd`:
`rsv = ((close - low_min) / denom * 100).clip(0, 100).fillna(50)` where
`denom = (high_max - low_min).replace(0, None)`.  A NaN (insufficient window,
via `rolling`, or zero-width range, via `replace(0, None)`) becomes `50`
through `fillna(50)`. -/
def rsv (df : List Bar) (period i : ℕ) : ℚ :=
  match rollingMin (df.map (·.low)) period i, rollingMax (df.map (·.high)) period i with
  | some lo, some hi =>
      if hi - lo = 0 then 50
      else clip 0 100 ((closeAt df i - lo) / (hi - lo) * 100)
  | _, _ => 50

/-- The raw (pre-rounding) K recurrence of `compute_kd`:
`k_vals` starts as `[50.0] * len(df)` and the loop
`k_vals[i] = (2/3) * k_vals[i-1] + (1/3) * rsv.iloc[i]` runs for `i ≥ 1`. -/
def kRaw (df : List Bar) (period : ℕ) : ℕ → ℚ
  | 0 => 50
  | i + 1 => 2 / 3 * kRaw df period i + 1 / 3 * rsv df period (i + 1)

/-- The raw D recurrence: `d_vals[i] = (2/3) * d_vals[i-1] + (1/3) * k_vals[i]`. -/
def dRaw (df : List Bar) (period : ℕ) : ℕ → ℚ
  | 0 => 50
  | i + 1 => 2 / 3 * dRaw df period i + 1 / 3 * kRaw df period (i + 1)

/-- `df["k_val"]` entry at row `i`: `round(v, 2)` of the recurrence value. -/
def k_val (df : List Bar) (period i : ℕ) : ℚ := round2 (kRaw df period i)

/-- `df["d_val"]` entry at row `i`. -/
def d_val (df : List Bar) (period i : ℕ) : ℚ := round2 (dRaw df period i)

/- ═════════════ Screener_page.py : strategy predicates ═════════════
Bars are embedded as structures, so every required column is always present;
the `required_cols.issubset` guards of the source (a DataFrame artifact) have
no failing case in this embedding.  Each strategy returns `none` («no match»)
or `some` of a match record mirroring the returned dict. -/

/-- `recent = df.tail(consolidation_days).reset_index(drop=True)`. -/
def recentOf (df : List Bar) (n : ℕ) : List Bar := df.drop (df.length - n)

/-- `box = recent.iloc[:-1]` — the first `n - 1` bars of the trailing `n`. -/
def boxOf (df : List Bar) (n : ℕ) : List Bar := (recentOf df n).take (n - 1)

/-- `today = recent.iloc[-1]`. -/
def todayBar (df : List Bar) (n : ℕ) : Bar :=
  (recentOf df n).getD ((recentOf df n).length - 1) default

/-- `yesterday = recent.iloc[-2]`. -/
def yesterdayBar (df : List Bar) (n : ℕ) : Bar :=
  (recentOf df n).getD ((recentOf df n).length - 2) default

/-- `box_high = float(box["high"].max())` (junk `0` stands for the NaN of an
empty box; theorems about this strategy assume `2 ≤ n` so the box is
nonempty, matching every parameterisation the page offers). -/
def boxHighOf (df : List Bar) (n : ℕ) : ℚ := (((boxOf df n).map (·.high)).max?).getD 0

/-- `box_low = float(box["low"].min())`. -/
def boxLowOf (df : List Bar) (n : ℕ) : ℚ := (((boxOf df n).map (·.low)).min?).getD 0

/-- `avg_5d_volume = float(box.tail(5)["volume"].mean())`. -/
def avg5dVolumeOf (df : List Bar) (n : ℕ) : ℚ :=
  listMean ((((boxOf df n).drop ((boxOf df n).length - 5)).map (·.volume)))

/-- Match record of strategy 1 (盤整突破第一根); field names transliterate the
dict keys of the source. -/
structure BreakoutRec where
  date : ℕ               -- "日期" (strftime formatting abstracted)
  close : ℚ              -- "收盤價"
  box_high : ℚ           -- "箱頂"
  box_low : ℚ            -- "箱底"
  amplitude_pct : ℚ      -- "振幅(%)"
  today_vol : ℤ          -- "今日量"
  avg_5d_vol : ℤ         -- "5日均量"
  vol_multiple : Option ℚ -- "量比", None when the 5-day average volume is ≤ 0
  deriving Repr, DecidableEq, Inhabited

/-- `amplitude = (box_high - box_low) / box_low`. -/
def amplitudeOf (df : List Bar) (n : ℕ) : ℚ :=
  (boxHighOf df n - boxLowOf df n) / boxLowOf df n

/-- Screener_page.py, lines 35-86: strategy 1, consolidation breakout. -/
def check_consolidation_breakout (df : List Bar) (consolidation_days : ℕ)
    (amplitude_threshold volume_ratio : ℚ) (check_volume : Bool) : Option BreakoutRec :=
  if df.length < consolidation_days + 1 then none else
  if amplitudeOf df consolidation_days ≥ amplitude_threshold then none
  else if (todayBar df consolidation_days).close ≤ boxHighOf df consolidation_days then none
  else if (yesterdayBar df consolidation_days).close > boxHighOf df consolidation_days then none
  else if check_volume ∧ (todayBar df consolidation_days).volume <
      avg5dVolumeOf df consolidation_days * volume_ratio then none
  else some {
    date := (todayBar df consolidation_days).date
    close := round2 (todayBar df consolidation_days).close
    box_high := round2 (boxHighOf df consolidation_days)
    box_low := round2 (boxLowOf df consolidation_days)
    amplitude_pct := round2 (amplitudeOf df consolidation_days * 100)
    today_vol := pyTrunc (todayBar df consolidation_days).volume
    avg_5d_vol := pyTrunc (avg5dVolumeOf df consolidation_days)
    vol_multiple :=
      if avg5dVolumeOf df consolidation_days > 0 then
        some (round2 ((todayBar df consolidation_days).volume /
                      avg5dVolumeOf df consolidation_days))
      else none }

/-- Match record of strategy 2 (均線多頭排列). -/
structure AlignRec where
  date : ℕ
  close : ℚ
  ma5 : ℚ
  ma10 : ℚ
  ma20 : ℚ
  close_vs_ma5_pct : ℚ
  volume : ℤ
  deriving Repr, DecidableEq, Inhabited

/-- Screener_page.py, lines 96-138: strategy 2, bullish MA alignment.
The source computes `ma5/ma10/ma20` into a working copy and checks
`pd.isna` on the latest row's three MAs, i.e. exactly whether each rolling
window is full. -/
def check_bullish_ma_alignment (df : List Bar) : Option AlignRec :=
  if df.length < 21 then none else
  let n := df.length
  match maLast df 5, maLast df 10, maLast df 20,
        rollingMean (closesOf df) 20 (n - 2) with
  | some ma5, some ma10, some ma20, some prev_ma20 =>
    let latest := barAt df (n - 1)
    if ¬(ma5 > ma10 ∧ ma10 > ma20) then none
    else if latest.close ≤ ma5 then none
    else if ma20 ≤ prev_ma20 then none
    else some {
      date := latest.date
      close := round2 latest.close
      ma5 := round2 ma5
      ma10 := round2 ma10
      ma20 := round2 ma20
      close_vs_ma5_pct := round2 ((latest.close - ma5) / ma5 * 100)
      volume := pyTrunc latest.volume }
  | _, _, _, _ => none

/-- Match record of strategy 3 (爆量長紅起漲). -/
structure SurgeRec where
  date : ℕ
  close : ℚ
  body_pct : ℚ
  today_vol : ℤ
  avg_5d_vol : ℤ
  vol_multiple : ℚ
  deriving Repr, DecidableEq, Inhabited

/-- `past5 = df.iloc[-6:-1]` — the five bars before today. -/
def past5Of (df : List Bar) : List Bar := (df.drop (df.length - 6)).take 5

/-- `today = df.iloc[-1]` of strategies 3 and 4. -/
def lastBar (df : List Bar) : Bar := barAt df (df.length - 1)

/-- `avg_5d_volume = float(past5["volume"].mean())`. -/
def surgeAvgVol (df : List Bar) : ℚ := listMean ((past5Of df).map (·.volume))

/-- `body_ratio = (close - open) / open if open > 0 else 0`. -/
def surgeBodyR (df : List Bar) : ℚ :=
  if (lastBar df).open_ > 0 then ((lastBar df).close - (lastBar df).open_) / (lastBar df).open_
  else 0

/-- `float(df.tail(5)["close"].max())`. -/
def maxClose5 (df : List Bar) : ℚ := (((df.drop (df.length - 5)).map (·.close)).max?).getD 0

/-- Screener_page.py, lines 149-192: strategy 3, volume-surge bullish candle. -/
def check_volume_surge_bullish (df : List Bar) (volume_ratio body_pct : ℚ) : Option SurgeRec :=
  if df.length < 6 then none else
  if surgeAvgVol df ≤ 0 then none
  else if (lastBar df).volume < surgeAvgVol df * volume_ratio then none
  else if surgeBodyR df ≤ body_pct then none
  else if (lastBar df).close < maxClose5 df then none
  else some {
    date := (lastBar df).date
    close := round2 (lastBar df).close
    body_pct := round2 (surgeBodyR df * 100)
    today_vol := pyTrunc (lastBar df).volume
    avg_5d_vol := pyTrunc (surgeAvgVol df)
    vol_multiple := round2 ((lastBar df).volume / surgeAvgVol df) }

/-- Match record of strategy 4 (乖離過大跌深反彈). -/
structure OversoldRec where
  date : ℕ
  close : ℚ
  ma20 : ℚ
  bias_pct : ℚ
  shadow_over_body : ℚ
  volume : ℤ
  deriving Repr, DecidableEq, Inhabited

/-- `float(today["ma20"])`, junk 0 behind the source's own `pd.isna` guard. -/
def ma20Val (df : List Bar) : ℚ := (maLast df 20).getD 0

/-- `bias = (close - ma20) / ma20`. -/
def ovBias (df : List Bar) : ℚ := ((lastBar df).close - ma20Val df) / ma20Val df

/-- `body = close - open_`. -/
def ovBody (df : List Bar) : ℚ := (lastBar df).close - (lastBar df).open_

/-- `lower_shadow = min(close, open_) - low`. -/
def ovShadow (df : List Bar) : ℚ :=
  min (lastBar df).close (lastBar df).open_ - (lastBar df).low

/-- Screener_page.py, lines 204-251: strategy 4, oversold reversal.
The `pd.isna(ma20)` guard is the `Option.isNone` test. -/
def check_oversold_reversal (df : List Bar) (bias_threshold shadow_ratio : ℚ) : Option OversoldRec :=
  if df.length < 21 then none else
  if (maLast df 20).isNone then none
  else if ovBias df ≥ bias_threshold then none
  else if (lastBar df).close ≤ (lastBar df).open_ then none
  else if ovBody df ≤ 0 ∨ ovShadow df < ovBody df * shadow_ratio then none
  else some {
    date := (lastBar df).date
    close := round2 (lastBar df).close
    ma20 := round2 (ma20Val df)
    bias_pct := round2 (ovBias df * 100)
    shadow_over_body := round2 (ovShadow df / ovBody df)
    volume := pyTrunc (lastBar df).volume }

/- ═════════════ Screener_page.py : scan_watchlist (lines 258-305) ═════════════
The external fetch may raise or return a (possibly empty) DataFrame; side
effects (the two optional callbacks) are modelled as returned event traces,
`time.sleep` has no observable value and is dropped.  The source's `if hit:`
truthiness test is modelled as `Option.isSome`: strategies return `None` or a
non-empty dict. -/

/-- Result of one `fetch_stock_candles` call inside the scan loop. -/
inductive FetchResult where
  | data (df : List Bar)     -- a normal return (possibly an empty frame)
  | raises (msg : String)    -- an exception with message `str(e)`
  deriving Repr, DecidableEq, Inhabited

def FetchResult.isRaises : FetchResult → Bool
  | .data _ => false
  | .raises _ => true

/-- One entry of the `errors` list: `{"代號": symbol, "原因": reason}`. -/
structure ErrorRec where
  symbol : String
  reason : String
  deriving Repr, DecidableEq, Inhabited

/-- Everything one iteration of the scan loop can emit. -/
structure ScanOutput (α : Type) where
  results : List (String × α)   -- `{"代號": symbol, **hit}`
  errors : List ErrorRec
  statusEvents : List String    -- arguments of `status_callback`, in call order
  progressEvents : List ℚ       -- arguments of `progress_callback`, in call order
  deriving Repr, DecidableEq

/-- The status text `f"掃描中 [{i + 1}/{total}]：{symbol}"`. -/
def statusMsg (i total : ℕ) (symbol : String) : String :=
  "掃描中 [" ++ toString (i + 1) ++ "/" ++ toString total ++ "]：" ++ symbol

/-- The scan loop body, processing the symbols from position `i` onward. -/
def scanGo (fetch : String → FetchResult) (strategy_fn : List Bar → Option α)
    (total : ℕ) : ℕ → List String → ScanOutput α
  | _, [] => ⟨[], [], [], []⟩
  | i, s :: rest =>
    let tail := scanGo fetch strategy_fn total (i + 1) rest
    let tail := { tail with
      statusEvents := statusMsg i total s :: tail.statusEvents
      progressEvents := ((i + 1 : ℚ) / (total : ℚ)) :: tail.progressEvents }
    match fetch s with
    | .raises m => { tail with errors := ⟨s, m.take 80⟩ :: tail.errors }
    | .data df =>
      if df.isEmpty then { tail with errors := ⟨s, "查無資料"⟩ :: tail.errors }
      else match strategy_fn df with
        | some hit => { tail with results := (s, hit) :: tail.results }
        | none => tail

/-- Screener_page.py, lines 258-305: the batch scan engine.  `fetch` stands
for `fetch_stock_candles(symbol, limit=fetch_limit)` (the external provider);
`sleep_sec` and the optionality of the callbacks have no observable effect on
the returned values and are absorbed into the event traces. -/
def scan_watchlist (symbols : List String) (strategy_fn : List Bar → Option α)
    (fetch : String → FetchResult) : ScanOutput α :=
  scanGo fetch strategy_fn symbols.length 0 symbols

/-- The match entry a given symbol contributes to `results` (if any). -/
def matchEntryOf (fetch : String → FetchResult) (strategy_fn : List Bar → Option α)
    (s : String) : Option (String × α) :=
  match fetch s with
  | .raises _ => none
  | .data df => if df.isEmpty then none else (strategy_fn df).map (fun hit => (s, hit))

/-- The error entry a given symbol contributes to `errors` (if any). -/
def errorEntryOf (fetch : String → FetchResult) (s : String) : Option ErrorRec :=
  match fetch s with
  | .raises m => some ⟨s, m.take 80⟩
  | .data df => if df.isEmpty then some ⟨s, "查無資料"⟩ else none

/-- The «no data» error entry of a symbol whose fetch does not raise. -/
def noDataEntryOf (fetch : String → FetchResult) (s : String) : Option ErrorRec :=
  match fetch s with
  | .raises _ => none
  | .data df => if df.isEmpty then some ⟨s, "查無資料"⟩ else none

/- ═════════════ Single_stock_page.py : deduction-value analysis ═════════════ -/

/-- A cell of a derived DataFrame column: a number, a label string, or NaN. -/
inductive ColVal where
  | num (q : ℚ)
  | str (s : String)
  | na
  deriving Repr, DecidableEq, Inhabited

/-- Single_stock_page.py, lines 21-38: trend label and colour from a bias
ratio (not percentage). -/
def deduction_trend (bias : ℚ) : String × String :=
  if |bias| ≤ 1 / 100 then ("🟰 盤整轉折", "#FF9800")
  else if bias > 1 / 100 then ("📈 易漲支撐", "#EF5350")
  else ("📉 易跌壓力", "#26A69A")

/-- One MA configuration from `ALL_CONFIGS`: (週期, 標籤, 副標題). -/
structure DedConfig where
  period : ℕ
  ma_name : String
  subtitle : String
  deriving Repr, DecidableEq, Inhabited

def ALL_CONFIGS : List DedConfig :=
  [⟨5, "5MA", "周線"⟩, ⟨10, "10MA", "雙周線"⟩, ⟨20, "20MA", "月線"⟩, ⟨60, "60MA", "季線"⟩]

/-- The configurations kept: `cfg[0] <= display_limit and len(df) >= cfg[0]`. -/
def maConfigsOf (df : List Bar) (display_limit : ℕ) : List DedConfig :=
  ALL_CONFIGS.filter (fun c => c.period ≤ display_limit ∧ c.period ≤ df.length)

/-- Historical column `ma{p}` (`rolling(p).mean()`). -/
def maHistCol (df : List Bar) (p : ℕ) : List ColVal :=
  (List.range df.length).map fun i =>
    match rollingMean (closesOf df) p i with
    | some q => ColVal.num q
    | none => ColVal.na

/-- Historical column `deduction_{p}` (`close.shift(p)`): row `i` holds the
close of row `i - p`, NaN on the first `p` rows. -/
def deductionHistCol (df : List Bar) (p : ℕ) : List ColVal :=
  (List.range df.length).map fun i =>
    if p ≤ i then ColVal.num (closeAt df (i - p)) else ColVal.na

/-- Historical column `bias_pct_{p}`: `(close - deduction) / deduction * 100`,
NaN wherever the shifted close is NaN. -/
def biasHistCol (df : List Bar) (p : ℕ) : List ColVal :=
  (List.range df.length).map fun i =>
    if p ≤ i then ColVal.num ((closeAt df i - closeAt df (i - p)) / closeAt df (i - p) * 100)
    else ColVal.na

/-- Historical column `trend_{p}`: the trend label applied to `bias/100`,
`"—"` on NaN rows. -/
def trendHistCol (df : List Bar) (p : ℕ) : List ColVal :=
  (List.range df.length).map fun i =>
    if p ≤ i then
      ColVal.str (deduction_trend ((closeAt df i - closeAt df (i - p)) / closeAt df (i - p))).1
    else ColVal.str "—"

/-- One row of the latest-day summary list (field names transliterate the
dict keys of the source). -/
structure DedRec where
  period : ℕ
  ma_name : String
  subtitle : String
  ma_val : ℚ
  current_close : ℚ
  deduction_price : ℚ
  diff_pct : ℚ
  trend : String
  trend_color : String
  deriving Repr, DecidableEq, Inhabited

/-- The summary entry a configuration contributes: skipped when the latest
`ma{p}` is NaN, otherwise built from `deduction_price = df["close"].iloc[-p]`
(0-based position `len - p`). -/
def dedSummaryEntry (df : List Bar) (c : DedConfig) : Option DedRec :=
  match maLast df c.period with
  | none => none
  | some ma_val =>
    let current_close := closeAt df (df.length - 1)
    let deduction_price := closeAt df (df.length - c.period)
    let bias := (current_close - deduction_price) / deduction_price
    some {
      period := c.period
      ma_name := c.ma_name
      subtitle := c.subtitle
      ma_val := round2 ma_val
      current_close := round2 current_close
      deduction_price := round2 deduction_price
      diff_pct := round2 (bias * 100)
      trend := (deduction_trend bias).1
      trend_color := (deduction_trend bias).2 }

/-- Single_stock_page.py, lines 41-143: full deduction-value analysis.
First component: the derived historical columns added to the working copy
(the untouched OHLCV base columns are not repeated); second component: the
latest-day summary, `none` when empty. -/
def calculate_deduction_values (df : List Bar) (display_limit : ℕ) :
    List (String × List ColVal) × Option (List DedRec) :=
  let cfgs := maConfigsOf df display_limit
  if df.isEmpty ∨ cfgs.isEmpty then ([], none)
  else
    let cols := cfgs.flatMap fun c =>
      [("ma" ++ toString c.period, maHistCol df c.period),
       ("deduction_" ++ toString c.period, deductionHistCol df c.period),
       ("bias_pct_" ++ toString c.period, biasHistCol df c.period),
       ("trend_" ++ toString c.period, trendHistCol df c.period)]
    let summary := cfgs.filterMap (dedSummaryEntry df)
    (cols, if summary.isEmpty then none else some summary)

/- ═════════════ scoring models (app.py & Score_page.py) ═════════════
The three models read most sub-indicators straight off the bar series (MAs,
volumes, deduction pressure); RSI(14), the 9/3/3 stochastic K/D and the MACD
triple come from the external `pandas_ta` library and enter as oracle
parameters (`none` = NaN / column absent), per the spec's contract view of
those indicators. -/

/-- The `pandas_ta` readings taken at the last bar. -/
structure TaInd where
  rsi14 : Option ℚ
  k_stoch : Option ℚ
  d_stoch : Option ℚ
  macd_dif : Option ℚ
  macd_dea : Option ℚ
  macd_hist : Option ℚ
  deriving Repr, DecidableEq, Inhabited

/-- Python `round(q, dec)`. -/
def pyRoundTo (dec : ℕ) (q : ℚ) : ℚ := (pyRoundInt (q * 10 ^ dec) : ℚ) / 10 ^ dec

/-- The display helper `_n`: `f"{v:,.{dec}f}" if v is not None else "N/A"`.
The exact float rendering (fixed decimals, thousands separators) is
presentation-layer; it is abstracted as the canonical string of the rounded
rational.  No theorem inspects these formatted numbers. -/
def fmtN (v : Option ℚ) (dec : ℕ) : String :=
  match v with
  | some q => toString (pyRoundTo dec q)
  | none => "N/A"

/-- `_above(price, ma)`: `price is not None and ma is not None and price > ma`. -/
def above (price ma : Option ℚ) : Bool :=
  match price, ma with
  | some p, some m => decide (p > m)
  | _, _ => false

/-- 10 points per moving average the close sits above. -/
def abovePts (price ma : Option ℚ) : ℤ := if above price ma then 10 else 0

/-- The last row's close as the `_f("close")` optional (never NaN here). -/
def lastCloseOf (df : List Bar) : Option ℚ := some (closeAt df (df.length - 1))

/-- `_f("volume")`. -/
def lastVolOf (df : List Bar) : Option ℚ := some ((volsOf df).getD (df.length - 1) 0)

/-- `float(df["volume"].iloc[-6:-1].mean()) if ... and len(df) >= 6 else None`. -/
def vol5avgOf (df : List Bar) : Option ℚ :=
  if 6 ≤ df.length then some (listMean (((volsOf df).drop (df.length - 6)).take 5)) else none

/-- A dimension entry `{"score": ..., "max": ..., "label": ...}`. -/
structure ScoreDim where
  score : ℤ
  max : ℤ
  label : String
  deriving Repr, DecidableEq, Inhabited

/-- One row of the `details` table (fixed-shape record per the spec's design
note; the source's per-row dict keys 維度/指標/數值/判斷/得分 map to
dim/metric/value/verdict, with 得分 split into `pts` / `maxPts`). -/
structure DetailRow where
  dim : String
  metric : String
  value : String
  verdict : String
  pts : ℤ
  maxPts : ℤ
  deriving Repr, DecidableEq, Inhabited

/-- A Score Result: total, mode tag (`none` for the general model, which has
no `"mode"` key), ordered dimension mapping, detail rows. -/
structure ScoreResult where
  total : ℤ
  mode : Option String
  dimensions : List (String × ScoreDim)
  details : List DetailRow
  deriving Repr, DecidableEq, Inhabited

/- ───────────── Score_page.py, Mode A (lines 34-179) ───────────── -/

/-- Score_page.py, lines 34-38: `_has_deduction_pressure` — is the close
about to drop out of the `period`-day window higher than the current close? -/
def has_deduction_pressure (df : List Bar) (period : ℕ) : Bool :=
  if df.length < period + 1 then false
  else decide (closeAt df (df.length - period) > closeAt df (df.length - 1))

/-- `pressure_count = sum([...10, ...20, ...60])`. -/
def pressureCountA (df : List Bar) : ℕ :=
  (if has_deduction_pressure df 10 then 1 else 0) +
  (if has_deduction_pressure df 20 then 1 else 0) +
  (if has_deduction_pressure df 60 then 1 else 0)

/-- Mode A deduction-pressure points: 0 pressured MAs → 10, 1 → 5, ≥ 2 → 0. -/
def dedPtsA (pc : ℕ) : ℤ × String :=
  if pc = 0 then (10, "✅ 三均線扣抵無壓（易漲）")
  else if pc = 1 then (5, "⚠️ 1 條均線有扣抵壓力")
  else (0, "❌ " ++ toString pc ++ " 條均線有扣抵壓力（易跌）")

/-- Mode A RSI banding: [50,70] → 15, (70,∞) → 10, [40,50) → 5, else 0. -/
def rsiPtsA (rsi : Option ℚ) : ℤ × String :=
  match rsi with
  | some r =>
    if 50 ≤ r ∧ r ≤ 70 then (15, "RSI " ++ fmtN (some r) 1 ++ "（50~70 健康多頭 ✅）")
    else if r > 70 then (10, "RSI " ++ fmtN (some r) 1 ++ "（> 70 超買警示 ⚠️）")
    else if 40 ≤ r ∧ r < 50 then (5, "RSI " ++ fmtN (some r) 1 ++ "（40~50 中性偏弱）")
    else (0, "RSI " ++ fmtN (some r) 1 ++ "（< 40 弱勢 ❌）")
  | none => (0, "資料不足")

/-- Mode A MACD histogram: 15 points when positive. -/
def histPtsA (hist : Option ℚ) : ℤ × String :=
  match hist with
  | some h =>
    (if h > 0 then 15 else 0,
     "MACD 柱狀 " ++ fmtN (some h) 4 ++ "（" ++ (if h > 0 then "翻紅 ✅" else "翻綠 ❌") ++ "）")
  | none => (0, "資料不足")

/-- Mode A volume: ratio ≥ 1.5 → 30, ≥ 1.0 → 20, else 0. -/
def volPtsA (volume vol_5avg : Option ℚ) : ℤ × String :=
  match volume, vol_5avg with
  | some v, some a =>
    if a > 0 then
      let ratio := v / a
      if ratio ≥ 15 / 10 then (30, "量能 " ++ fmtN (some ratio) 1 ++ "x 均量（帶量突破 ✅）")
      else if ratio ≥ 1 then (20, "量能 " ++ fmtN (some ratio) 1 ++ "x 均量（略放量）")
      else (0, "量能 " ++ fmtN (some ratio) 1 ++ "x 均量（量縮 ❌）")
    else (0, "資料不足")
  | _, _ => (0, "資料不足")

/-- Mode A Trend dimension (40 pts): 10 per MA the close holds above, plus
deduction-pressure points. -/
def trendScoreA (df : List Bar) : ℤ :=
  abovePts (lastCloseOf df) (maLast df 10) + abovePts (lastCloseOf df) (maLast df 20) +
  abovePts (lastCloseOf df) (maLast df 60) + (dedPtsA (pressureCountA df)).1

/-- Mode A Momentum dimension (30 pts). -/
def momentumScoreA (ta : TaInd) : ℤ := (rsiPtsA ta.rsi14).1 + (histPtsA ta.macd_hist).1

/-- Mode A Volume dimension (30 pts). -/
def volumeScoreA (df : List Bar) : ℤ := (volPtsA (lastVolOf df) (vol5avgOf df)).1

/-- `'>' / '≤'` and verdict text of a trend detail row. -/
def trendRowA (df : List Bar) (p : ℕ) : DetailRow :=
  let t := above (lastCloseOf df) (maLast df p)
  { dim := "趨勢 Trend", metric := "站上 " ++ toString p ++ "MA",
    value := "收 " ++ fmtN (lastCloseOf df) 2 ++ (if t then " > " else " ≤ ") ++
             toString p ++ "MA " ++ fmtN (maLast df p) 2,
    verdict := if t then "✅ 多頭" else "❌ 空頭",
    pts := abovePts (lastCloseOf df) (maLast df p), maxPts := 10 }

/-- The seven Mode A detail rows. -/
def detailsA (df : List Bar) (ta : TaInd) : List DetailRow :=
  [trendRowA df 10, trendRowA df 20, trendRowA df 60,
   { dim := "趨勢 Trend", metric := "均線扣抵壓力",
     value := toString (pressureCountA df) ++ " 條均線有壓力",
     verdict := (dedPtsA (pressureCountA df)).2,
     pts := (dedPtsA (pressureCountA df)).1, maxPts := 10 },
   { dim := "動能 Momentum", metric := "RSI (14)", value := fmtN ta.rsi14 2,
     verdict := (rsiPtsA ta.rsi14).2, pts := (rsiPtsA ta.rsi14).1, maxPts := 15 },
   { dim := "動能 Momentum", metric := "MACD 柱狀圖", value := fmtN ta.macd_hist 4,
     verdict := (histPtsA ta.macd_hist).2, pts := (histPtsA ta.macd_hist).1, maxPts := 15 },
   { dim := "量能 Volume", metric := "量能 vs 5 日均量",
     value := "今日 " ++ fmtN (lastVolOf df) 0 ++ " 張  均 " ++ fmtN (vol5avgOf df) 0 ++ " 張",
     verdict := (volPtsA (lastVolOf df) (vol5avgOf df)).2,
     pts := (volPtsA (lastVolOf df) (vol5avgOf df)).1, maxPts := 30 }]

/-- Score_page.py, lines 41-179: Mode A (short-term momentum, 100 pts).
`if df.empty or len(df) < 65: return None` — the length test subsumes the
emptiness test. -/
def compute_score_mode_a (df : List Bar) (ta : TaInd) : Option ScoreResult :=
  if df.length < 65 then none
  else some {
    total := trendScoreA df + momentumScoreA ta + volumeScoreA df
    mode := some "A"
    dimensions := [
      ("trend", ⟨trendScoreA df, 40, "趨勢\nTrend"⟩),
      ("momentum", ⟨momentumScoreA ta, 30, "動能\nMomentum"⟩),
      ("volume", ⟨volumeScoreA df, 30, "量能\nVolume"⟩)]
    details := detailsA df ta }

/- ───────────── Score_page.py, Mode B (lines 186-316) ───────────── -/

/-- `ma240` is only computed when 240 bars are available. -/
def ma240Of (df : List Bar) : Option ℚ :=
  if 240 ≤ df.length then maLast df 240 else none

/-- Mode B price level (40/20/10, `0` only on missing data). -/
def pricePtsB (close ma60 ma240 : Option ℚ) : ℤ × String :=
  match close, ma60 with
  | some c, some m60 =>
    if c < m60 then
      (40, "收 " ++ fmtN (some c) 2 ++ " < 60MA " ++ fmtN (some m60) 2 ++ "（深度折價區 ✅）")
    else
      match ma240 with
      | some m240 =>
        if c < m240 then
          (20, "60MA " ++ fmtN (some m60) 2 ++ " ≤ 收 " ++ fmtN (some c) 2 ++ " < 240MA " ++
               fmtN (some m240) 2 ++ "（中間區）")
        else (10, "收 " ++ fmtN (some c) 2 ++ " ≥ 240MA " ++ fmtN (some m240) 2 ++ "（偏貴區 ❌）")
      | none => (10, "收 " ++ fmtN (some c) 2 ++ " ≥ 240MA " ++ "（240MA 資料不足）" ++ "（偏貴區 ❌）")
  | _, _ => (0, "資料不足")

/-- Mode B RSI: 20 points below 30. -/
def rsiPtsB (rsi : Option ℚ) : ℤ × String :=
  match rsi with
  | some r =>
    if r < 30 then (20, "RSI " ++ fmtN (some r) 1 ++ "（< 30 嚴重超賣 ✅）")
    else (0, "RSI " ++ fmtN (some r) 1 ++ "（未超賣）")
  | none => (0, "資料不足")

/-- Mode B 60MA bias: 20 points below −10% (also yields the 數值 string). -/
def biasPtsB (close ma60 : Option ℚ) : ℤ × String × String :=
  match close, ma60 with
  | some c, some m60 =>
    let bias := (c - m60) / m60 * 100
    if bias < -10 then
      (20, "乖離率 " ++ fmtN (some bias) 1 ++ "%（< -10% 深度超賣 ✅）", fmtN (some bias) 1 ++ "%")
    else (0, "乖離率 " ++ fmtN (some bias) 1 ++ "%（未達 -10%）", fmtN (some bias) 1 ++ "%")
  | _, _ => (0, "資料不足", "N/A")

/-- Mode B KD low-zone scoring (20/10/5/0). -/
def kdPtsB (k d : Option ℚ) : ℤ × String :=
  match k, d with
  | some k, some d =>
    if k < 20 ∧ d < 20 ∧ k > d then
      (20, "K=" ++ fmtN (some k) 1 ++ " D=" ++ fmtN (some d) 1 ++ "（低檔黃金交叉 ✅）")
    else if k < 20 ∧ d < 20 then
      (10, "K=" ++ fmtN (some k) 1 ++ " D=" ++ fmtN (some d) 1 ++ "（KD 低檔盤旋，尚未交叉）")
    else if k < 30 ∨ d < 30 then
      (5, "K=" ++ fmtN (some k) 1 ++ " D=" ++ fmtN (some d) 1 ++ "（接近超賣區）")
    else (0, "K=" ++ fmtN (some k) 1 ++ " D=" ++ fmtN (some d) 1 ++ "（未在超賣區 ❌）")
  | _, _ => (0, "資料不足")

/-- Mode B Price Level dimension (40 pts). -/
def priceLevelScoreB (df : List Bar) : ℤ :=
  (pricePtsB (lastCloseOf df) (maLast df 60) (ma240Of df)).1

/-- Mode B Oversold dimension (40 pts). -/
def oversoldScoreB (df : List Bar) (ta : TaInd) : ℤ :=
  (rsiPtsB ta.rsi14).1 + (biasPtsB (lastCloseOf df) (maLast df 60)).1

/-- Mode B LT Baseline dimension (20 pts). -/
def ltBaselineScoreB (ta : TaInd) : ℤ := (kdPtsB ta.k_stoch ta.d_stoch).1

/-- The four Mode B detail rows. -/
def detailsB (df : List Bar) (ta : TaInd) : List DetailRow :=
  [{ dim := "價格位階 Price Level", metric := "60 / 240MA 位置",
     value := "收 " ++ fmtN (lastCloseOf df) 2 ++ "  60MA " ++ fmtN (maLast df 60) 2 ++
              "  240MA " ++ fmtN (ma240Of df) 2,
     verdict := (pricePtsB (lastCloseOf df) (maLast df 60) (ma240Of df)).2,
     pts := (pricePtsB (lastCloseOf df) (maLast df 60) (ma240Of df)).1, maxPts := 40 },
   { dim := "超賣指標 Oversold", metric := "RSI (14)", value := fmtN ta.rsi14 2,
     verdict := (rsiPtsB ta.rsi14).2, pts := (rsiPtsB ta.rsi14).1, maxPts := 20 },
   { dim := "超賣指標 Oversold", metric := "60MA 乖離率",
     value := (biasPtsB (lastCloseOf df) (maLast df 60)).2.2,
     verdict := (biasPtsB (lastCloseOf df) (maLast df 60)).2.1,
     pts := (biasPtsB (lastCloseOf df) (maLast df 60)).1, maxPts := 20 },
   { dim := "長線基期 LT Baseline", metric := "KD 低檔黃金交叉",
     value := "K=" ++ fmtN ta.k_stoch 2 ++ " D=" ++ fmtN ta.d_stoch 2,
     verdict := (kdPtsB ta.k_stoch ta.d_stoch).2,
     pts := (kdPtsB ta.k_stoch ta.d_stoch).1, maxPts := 20 }]

/-- Score_page.py, lines 186-316: Mode B (long-horizon accumulation, 100 pts). -/
def compute_score_mode_b (df : List Bar) (ta : TaInd) : Option ScoreResult :=
  if df.length < 65 then none
  else some {
    total := priceLevelScoreB df + oversoldScoreB df ta + ltBaselineScoreB ta
    mode := some "B"
    dimensions := [
      ("price_level", ⟨priceLevelScoreB df, 40, "價格位階\nPrice Level"⟩),
      ("oversold", ⟨oversoldScoreB df ta, 40, "超賣指標\nOversold"⟩),
      ("lt_baseline", ⟨ltBaselineScoreB ta, 20, "長線基期\nLT Baseline"⟩)]
    details := detailsB df ta }

/- ───────────── app.py, general model (lines 462-633) ───────────── -/

/-- General-model RSI banding: [40,70] → 15, <30 → 15, >80 → 0, else 5. -/
def rsiPtsG (rsi : Option ℚ) : ℤ × String :=
  match rsi with
  | some r =>
    if 40 ≤ r ∧ r ≤ 70 then (15, "健康多頭（40~70）")
    else if r < 30 then (15, "超賣反彈潛力（< 30）")
    else if r > 80 then (0, "超買過熱（> 80）")
    else (5, "中性偏弱（30~40 或 70~80）")
  | none => (0, "資料不足")

/-- General-model stochastic cross: 15 points when K > D. -/
def kdPtsG (k d : Option ℚ) : ℤ × String :=
  match k, d with
  | some k, some d => if k > d then (15, "K > D（黃金交叉）") else (0, "K ≤ D（死亡交叉）")
  | _, _ => (0, "資料不足")

/-- General-model MACD histogram: 10 points when positive. -/
def histPtsG (hist : Option ℚ) : ℤ × String :=
  match hist with
  | some h => if h > 0 then (10, "柱狀 > 0（多頭動能）") else (0, "柱狀 ≤ 0（動能減弱）")
  | none => (0, "資料不足")

/-- General-model MACD fast/slow cross: 10 points when DIF > DEA. -/
def crossPtsG (dif dea : Option ℚ) : ℤ × String :=
  match dif, dea with
  | some f, some s => if f > s then (10, "DIF > DEA（多頭）") else (0, "DIF ≤ DEA（空頭）")
  | _, _ => (0, "資料不足")

/-- General-model volume: 20 points when today's volume beats the 5-day mean. -/
def volPtsG (volume vol_5avg : Option ℚ) : ℤ × String :=
  match volume, vol_5avg with
  | some v, some a =>
    if a > 0 then (if v > a then (20, "量能放大") else (0, "量能萎縮"))
    else (0, "資料不足")
  | _, _ => (0, "資料不足")

/-- General-model Trend dimension (30 pts). -/
def trendScoreG (df : List Bar) : ℤ :=
  abovePts (lastCloseOf df) (maLast df 10) + abovePts (lastCloseOf df) (maLast df 20) +
  abovePts (lastCloseOf df) (maLast df 60)

/-- General-model Momentum dimension (30 pts). -/
def momentumScoreG (ta : TaInd) : ℤ :=
  (rsiPtsG ta.rsi14).1 + (kdPtsG ta.k_stoch ta.d_stoch).1

/-- General-model Oscillator dimension (20 pts). -/
def oscillatorScoreG (ta : TaInd) : ℤ :=
  (histPtsG ta.macd_hist).1 + (crossPtsG ta.macd_dif ta.macd_dea).1

/-- General-model Volume dimension (20 pts). -/
def volumeScoreG (df : List Bar) : ℤ := (volPtsG (lastVolOf df) (vol5avgOf df)).1

/-- A general-model trend detail row. -/
def trendRowG (df : List Bar) (p : ℕ) (metric : String) : DetailRow :=
  let t := above (lastCloseOf df) (maLast df p)
  { dim := "趨勢 Trend", metric := metric,
    value := "收 " ++ fmtN (lastCloseOf df) 2 ++ (if t then " > " else " ≤ ") ++
             toString p ++ "MA " ++ fmtN (maLast df p) 2,
    verdict := if t then "✅ 多頭" else "❌ 空頭",
    pts := abovePts (lastCloseOf df) (maLast df p), maxPts := 10 }

/-- The eight general-model detail rows. -/
def detailsG (df : List Bar) (ta : TaInd) : List DetailRow :=
  [trendRowG df 10 "短線趨勢 (10MA)", trendRowG df 20 "中線趨勢 (20MA)",
   trendRowG df 60 "長線趨勢 (60MA)",
   { dim := "動能 Momentum", metric := "RSI (14)", value := fmtN ta.rsi14 2,
     verdict := (rsiPtsG ta.rsi14).2, pts := (rsiPtsG ta.rsi14).1, maxPts := 15 },
   { dim := "動能 Momentum", metric := "KD (9,3,3)",
     value := "K " ++ fmtN ta.k_stoch 2 ++ "  D " ++ fmtN ta.d_stoch 2,
     verdict := (kdPtsG ta.k_stoch ta.d_stoch).2,
     pts := (kdPtsG ta.k_stoch ta.d_stoch).1, maxPts := 15 },
   { dim := "震盪 Oscillator", metric := "MACD 柱狀圖 (Hist)", value := fmtN ta.macd_hist 2,
     verdict := (histPtsG ta.macd_hist).2, pts := (histPtsG ta.macd_hist).1, maxPts := 10 },
   { dim := "震盪 Oscillator", metric := "MACD 快慢線 (DIF/DEA)",
     value := "DIF " ++ fmtN ta.macd_dif 2 ++ "  DEA " ++ fmtN ta.macd_dea 2,
     verdict := (crossPtsG ta.macd_dif ta.macd_dea).2,
     pts := (crossPtsG ta.macd_dif ta.macd_dea).1, maxPts := 10 },
   { dim := "量能 Volume", metric := "成交量 vs 5 日均量",
     value := "今日 " ++ fmtN (lastVolOf df) 0 ++ " 張  均 " ++ fmtN (vol5avgOf df) 0 ++ " 張",
     verdict := (volPtsG (lastVolOf df) (vol5avgOf df)).2,
     pts := (volPtsG (lastVolOf df) (vol5avgOf df)).1, maxPts := 20 }]

/-- app.py, lines 462-633: the general scoring model (100 pts, no mode key). -/
def compute_score (df : List Bar) (ta : TaInd) : Option ScoreResult :=
  if df.length < 65 then none
  else some {
    total := trendScoreG df + momentumScoreG ta + oscillatorScoreG ta + volumeScoreG df
    mode := none
    dimensions := [
      ("trend", ⟨trendScoreG df, 30, "趨勢\nTrend"⟩),
      ("momentum", ⟨momentumScoreG ta, 30, "動能\nMomentum"⟩),
      ("oscillator", ⟨oscillatorScoreG ta, 20, "震盪\nOscillator"⟩),
      ("volume", ⟨volumeScoreG df, 20, "量能\nVolume"⟩)]
    details := detailsG df ta }

/-- The Score Result invariant of the data model: total = Σ dimension scores,
0 ≤ score ≤ max per dimension, Σ max = 100, 0 ≤ total ≤ 100. -/
def scoreInvB (r : ScoreResult) : Bool :=
  (r.total == (r.dimensions.map (fun d => d.2.score)).sum) &&
  r.dimensions.all (fun d => 0 ≤ d.2.score && d.2.score ≤ d.2.max) &&
  ((r.dimensions.map (fun d => d.2.max)).sum == 100) &&
  (0 ≤ r.total && r.total ≤ 100)

/- ═════════════ heap model for DataFrame aliasing (frame effects) ═════════════
To settle the «never mutates the caller's DataFrame» claim the relevant
functions are re-run against a reference-and-store semantics: a `Heap` is a
store of frames, a caller passes a reference, `df.copy()` (and
`.reset_index(drop=True)`, which also returns a fresh object) allocates, and
a pandas column assignment `df[name] = ...` mutates the frame its reference
points to, in place.  Column contents that the source takes from `pandas_ta`
are abstracted as NaN cells — the frame-effect theorems depend only on which
frame is written, while computed readings enter through the `ta` oracle. -/

/-- A DataFrame's mutable contents: named columns in insertion order. -/
abbrev Frame := List (String × List ColVal)

/-- The store: frame index = reference identity. -/
abbrev Heap := List Frame

def frameAt (h : Heap) (r : ℕ) : Frame := h.getD r []

/-- Replace a column in place, or append it (pandas `df[name] = col`). -/
def upsertCol (f : Frame) (name : String) (col : List ColVal) : Frame :=
  if f.any (fun c => c.1 = name) then f.map (fun c => if c.1 = name then (name, col) else c)
  else f ++ [(name, col)]

/-- In-place column assignment on the frame reference `r` points to. -/
def setCol (h : Heap) (r : ℕ) (name : String) (col : List ColVal) : Heap :=
  h.set r (upsertCol (frameAt h r) name col)

/-- A sequence of column assignments, all to the same reference. -/
def writeCols (h : Heap) (r : ℕ) (cols : List (String × List ColVal)) : Heap :=
  cols.foldl (fun hh c => setCol hh r c.1 c.2) h

/-- Read a numeric column out of a frame (non-numeric cells read as junk 0). -/
def getColQ (f : Frame) (name : String) : List ℚ :=
  match f.find? (fun c => c.1 = name) with
  | some c => c.2.map (fun v => match v with | .num q => q | _ => 0)
  | none => []

/-- View a frame's OHLCV columns as a bar list (row count from `close`). -/
def toBars (f : Frame) : List Bar :=
  (List.range (getColQ f "close").length).map fun i =>
    { date := i, open_ := (getColQ f "open").getD i 0, high := (getColQ f "high").getD i 0,
      low := (getColQ f "low").getD i 0, close := (getColQ f "close").getD i 0,
      volume := (getColQ f "volume").getD i 0 }

/-- The `k_val` column of `compute_kd` as stored cells. -/
def kCol (df : List Bar) (period : ℕ) : List ColVal :=
  (List.range df.length).map fun i => ColVal.num (k_val df period i)

/-- The `d_val` column of `compute_kd` as stored cells. -/
def dCol (df : List Bar) (period : ℕ) : List ColVal :=
  (List.range df.length).map fun i => ColVal.num (d_val df period i)

/-- utils.py `compute_ma` under the store semantics: copy, then one column
assignment per period; returns the reference of the copy. -/
def compute_ma_st (h : Heap) (r : ℕ) (periods : List ℕ) : Heap × ℕ :=
  let f := frameAt h r
  let r2 := h.length
  let df := toBars f
  (writeCols (h ++ [f]) r2 (periods.map fun p => ("ma" ++ toString p, maHistCol df p)), r2)

/-- utils.py `compute_kd` under the store semantics. -/
def compute_kd_st (h : Heap) (r : ℕ) (period : ℕ) : Heap × ℕ :=
  let f := frameAt h r
  let r2 := h.length
  let df := toBars f
  (writeCols (h ++ [f]) r2 [("k_val", kCol df period), ("d_val", dCol df period)], r2)

/-- Strategy 1 under the store semantics: reads only (`tail` / `iloc` build
derived objects, no column is ever assigned). -/
def check_consolidation_breakout_st (h : Heap) (r : ℕ) (n : ℕ) (amp vr : ℚ)
    (chk : Bool) : Heap × Option BreakoutRec :=
  (h, check_consolidation_breakout (toBars (frameAt h r)) n amp vr chk)

/-- Strategy 2 under the store semantics: copies, then assigns ma5/ma10/ma20
on the copy. -/
def check_bullish_ma_alignment_st (h : Heap) (r : ℕ) : Heap × Option AlignRec :=
  let f := frameAt h r
  let r2 := h.length
  let df := toBars f
  (writeCols (h ++ [f]) r2
    [("ma5", maHistCol df 5), ("ma10", maHistCol df 10), ("ma20", maHistCol df 20)],
   check_bullish_ma_alignment df)

/-- Strategy 3 under the store semantics: reads only. -/
def check_volume_surge_bullish_st (h : Heap) (r : ℕ) (vr bp : ℚ) :
    Heap × Option SurgeRec :=
  (h, check_volume_surge_bullish (toBars (frameAt h r)) vr bp)

/-- Strategy 4 under the store semantics: copies, then assigns ma20. -/
def check_oversold_reversal_st (h : Heap) (r : ℕ) (bt sr : ℚ) :
    Heap × Option OversoldRec :=
  let f := frameAt h r
  let r2 := h.length
  let df := toBars f
  (writeCols (h ++ [f]) r2 [("ma20", maHistCol df 20)], check_oversold_reversal df bt sr)

/-- A column whose cells the source fills from `pandas_ta` (abstracted). -/
def taCol (n : ℕ) : List ColVal := List.replicate n ColVal.na

/-- app.py `compute_score` under the store semantics:
`df.copy().reset_index(drop=True)` allocates twice, every derived column
lands on the second fresh frame. -/
def compute_score_st (h : Heap) (r : ℕ) (ta : TaInd) : Heap × Option ScoreResult :=
  let f := frameAt h r
  let r2 := h.length + 1
  let df := toBars f
  (writeCols (h ++ [f, f]) r2
    [("ma10", maHistCol df 10), ("ma20", maHistCol df 20), ("ma60", maHistCol df 60),
     ("rsi14", taCol df.length), ("k_stoch", taCol df.length), ("d_stoch", taCol df.length),
     ("macd_dif", taCol df.length), ("macd_hist", taCol df.length),
     ("macd_dea", taCol df.length)],
   compute_score df ta)

/-- Score_page.py Mode A under the store semantics. -/
def compute_score_mode_a_st (h : Heap) (r : ℕ) (ta : TaInd) : Heap × Option ScoreResult :=
  let f := frameAt h r
  let r2 := h.length + 1
  let df := toBars f
  (writeCols (h ++ [f, f]) r2
    [("ma10", maHistCol df 10), ("ma20", maHistCol df 20), ("ma60", maHistCol df 60),
     ("rsi14", taCol df.length), ("macd_hist", taCol df.length)],
   compute_score_mode_a df ta)

/-- Score_page.py Mode B under the store semantics (`ma240` only written when
240 bars are available). -/
def compute_score_mode_b_st (h : Heap) (r : ℕ) (ta : TaInd) : Heap × Option ScoreResult :=
  let f := frameAt h r
  let r2 := h.length + 1
  let df := toBars f
  (writeCols (h ++ [f, f]) r2
    ([("ma60", maHistCol df 60)] ++
     (if 240 ≤ df.length then [("ma240", maHistCol df 240)] else []) ++
     [("rsi14", taCol df.length), ("k_stoch", taCol df.length),
      ("d_stoch", taCol df.length)]),
   compute_score_mode_b df ta)

/-- Single_stock_page.py `calculate_deduction_values` under the store
semantics: copy + reset allocate, then the four derived columns per kept MA
configuration are assigned on the fresh frame. -/
def calculate_deduction_values_st (h : Heap) (r : ℕ) (display_limit : ℕ) :
    Heap × ℕ × Option (List DedRec) :=
  let f := frameAt h r
  let r2 := h.length + 1
  let df := toBars f
  let pure_result := calculate_deduction_values df display_limit
  (writeCols (h ++ [f, f]) r2 pure_result.1, r2, pure_result.2)

/- ═══════════════ concrete inputs used by witness theorems ═══════════════ -/

/-- A short 3-bar series (witness input). -/
def dfKD : List Bar :=
  [⟨0, 5, 6, 4, 5, 100⟩, ⟨1, 5, 7, 3, 6, 100⟩, ⟨2, 6, 8, 5, 7, 100⟩]

/-- Nine identical bars: a zero-width 9-bar range (witness input). -/
def dfFlat : List Bar :=
  [⟨0, 5, 5, 5, 5, 100⟩, ⟨1, 5, 5, 5, 5, 100⟩, ⟨2, 5, 5, 5, 5, 100⟩,
   ⟨3, 5, 5, 5, 5, 100⟩, ⟨4, 5, 5, 5, 5, 100⟩, ⟨5, 5, 5, 5, 5, 100⟩,
   ⟨6, 5, 5, 5, 5, 100⟩, ⟨7, 5, 5, 5, 5, 100⟩, ⟨8, 5, 5, 5, 5, 100⟩]

/-- 22 bars: a flat box of 21 bars then a breakout bar on doubled volume
(witness input). -/
def dfBreak : List Bar :=
  ((List.range 21).map (fun i => ⟨i, 100, 100, 100, 100, 1000⟩)) ++
  [⟨21, 104, 106, 104, 105, 2000⟩]

/-- 22 bars whose last close exactly ties the box high (witness input). -/
def dfTie : List Bar :=
  ((List.range 21).map (fun i => ⟨i, 100, 100, 100, 100, 1000⟩)) ++
  [⟨21, 100, 101, 99, 100, 1000⟩]

/-- Six bars with closes 1..6: distinguishes `close.iloc[-5]` (= 2, position
`len - 5`) from the close at position `(len - 1) - 5` (= 1). -/
def df6C2 : List Bar :=
  [⟨0, 1, 1, 1, 1, 10⟩, ⟨1, 2, 2, 2, 2, 10⟩, ⟨2, 3, 3, 3, 3, 10⟩,
   ⟨3, 4, 4, 4, 4, 10⟩, ⟨4, 5, 5, 5, 5, 10⟩, ⟨5, 6, 6, 6, 6, 10⟩]

/-- 65 constant bars (witness input for the scoring gates). -/
def df65 : List Bar := (List.range 65).map (fun i => ⟨i, 10, 11, 9, 10, 50⟩)

/-- An arbitrary full oracle reading (witness input). -/
def taW : TaInd := ⟨some 55, some 50, some 40, some 1, some 2, some 3⟩

/-- The general-model result at `df65` with the RSI oracle removed. -/
def scoreRG : ScoreResult :=
  (compute_score df65 { taW with rsi14 := none }).getD default

/-- The Mode A result at `df65` with the RSI oracle removed. -/
def scoreRA : ScoreResult :=
  (compute_score_mode_a df65 { taW with rsi14 := none }).getD default

/-- The Mode B result at `df65` with the RSI oracle removed. -/
def scoreRB : ScoreResult :=
  (compute_score_mode_b df65 { taW with rsi14 := none }).getD default

/-- A one-frame heap holding a tiny caller DataFrame (witness input). -/
def heapW : Heap := [[("close", [ColVal.num 7, ColVal.num 8])]]

/-- A long (>80 character) exception message (witness input). -/
def msgW : String :=
  "upstream provider error: connection reset by peer while fetching candles, please retry later (code 502)"

/-- A fetch in which exactly symbol 9999 raises (witness input). -/
def fetchW : String → FetchResult := fun s =>
  if s = "9999" then FetchResult.raises msgW
  else if s = "0050" then FetchResult.data []
  else FetchResult.data dfKD

/-- A strategy that matches every nonempty frame (witness input). -/
def stratW : List Bar → Option ℕ := fun df => some df.length

/- ═══════════════ supporting lemmas (rounding / windows) ═══════════════ -/

theorem pyRoundInt_le_ceil (q : ℚ) : pyRoundInt q ≤ ⌈q⌉ := by
  unfold pyRoundInt
  split
  · split
    · exact Int.floor_le_ceil q
    · rename_i htie _
      have hne : (⌊q⌋ : ℚ) ≠ q := by
        intro h
        rw [← h] at htie
        simp at htie
      have : ⌊q⌋ < ⌈q⌉ := by
        rcases lt_or_eq_of_le (Int.floor_le_ceil q) with h | h
        · exact h
        · exfalso
          apply hne
          have h1 : (⌊q⌋ : ℚ) ≤ q := Int.floor_le q
          have h2 : q ≤ (⌈q⌉ : ℚ) := Int.le_ceil q
          rw [← h] at h2
          exact le_antisymm h1 h2
      omega
  · rw [round_eq]
    have h2 : q + 1 / 2 < ((⌈q⌉ + 1 : ℤ) : ℚ) := by
      push_cast
      linarith [Int.le_ceil q]
    exact Int.lt_add_one_iff.mp (Int.floor_lt.mpr h2)

theorem floor_le_pyRoundInt (q : ℚ) : ⌊q⌋ ≤ pyRoundInt q := by
  unfold pyRoundInt
  split
  · split <;> omega
  · rw [round_eq]
    apply Int.floor_le_floor
    linarith

/-- Rounding to two decimals keeps a value inside a `[lo, hi]` interval whose
endpoints are integer multiples of `1/100`. -/
theorem round2_mem_Icc {lo hi q : ℚ} {zlo zhi : ℤ}
    (hlo : lo = (zlo : ℚ) / 100) (hhi : hi = (zhi : ℚ) / 100)
    (h1 : lo ≤ q) (h2 : q ≤ hi) : lo ≤ round2 q ∧ round2 q ≤ hi := by
  subst hlo hhi
  constructor
  · have hfl : zlo ≤ ⌊q * 100⌋ := by
      apply Int.le_floor.mpr
      have : (zlo : ℚ) ≤ q * 100 := by
        have := mul_le_mul_of_nonneg_right h1 (by norm_num : (0:ℚ) ≤ 100)
        calc (zlo : ℚ) = (zlo : ℚ) / 100 * 100 := by ring
        _ ≤ q * 100 := this
      exact_mod_cast this
    have := floor_le_pyRoundInt (q * 100)
    unfold round2
    have hz : (zlo : ℚ) ≤ (pyRoundInt (q * 100) : ℚ) := by exact_mod_cast le_trans hfl this
    linarith
  · have hcl : ⌈q * 100⌉ ≤ zhi := by
      apply Int.ceil_le.mpr
      have : q * 100 ≤ (zhi : ℚ) := by
        have := mul_le_mul_of_nonneg_right h2 (by norm_num : (0:ℚ) ≤ 100)
        calc q * 100 ≤ (zhi : ℚ) / 100 * 100 := this
        _ = (zhi : ℚ) := by ring
      exact_mod_cast this
    have := pyRoundInt_le_ceil (q * 100)
    unfold round2
    have hz : (pyRoundInt (q * 100) : ℚ) ≤ (zhi : ℚ) := by exact_mod_cast le_trans this hcl
    linarith

theorem clip_mem_Icc {lo hi : ℚ} (x : ℚ) (h : lo ≤ hi) :
    lo ≤ clip lo hi x ∧ clip lo hi x ≤ hi := by
  unfold clip
  constructor
  · exact le_max_left _ _
  · apply max_le h
    exact min_le_left _ _

theorem listMean_nonneg {l : List ℚ} (h : ∀ x ∈ l, 0 ≤ x) : 0 ≤ listMean l := by
  unfold listMean
  apply div_nonneg (List.sum_nonneg h)
  exact_mod_cast Nat.zero_le _

theorem rsv_mem (df : List Bar) (period i : ℕ) :
    0 ≤ rsv df period i ∧ rsv df period i ≤ 100 := by
  unfold rsv
  split
  · split
    · norm_num
    · exact clip_mem_Icc _ (by norm_num)
  · norm_num

theorem kRaw_mem (df : List Bar) (period i : ℕ) :
    0 ≤ kRaw df period i ∧ kRaw df period i ≤ 100 := by
  induction i with
  | zero => unfold kRaw; norm_num
  | succ n ih =>
      have hr := rsv_mem df period (n + 1)
      unfold kRaw
      constructor <;> nlinarith [ih.1, ih.2, hr.1, hr.2]

theorem dRaw_mem (df : List Bar) (period i : ℕ) :
    0 ≤ dRaw df period i ∧ dRaw df period i ≤ 100 := by
  induction i with
  | zero => unfold dRaw; norm_num
  | succ n ih =>
      have hk := kRaw_mem df period (n + 1)
      unfold dRaw
      constructor <;> nlinarith [ih.1, ih.2, hk.1, hk.2]

theorem round2_mem_0_100 {q : ℚ} (h1 : 0 ≤ q) (h2 : q ≤ 100) :
    0 ≤ round2 q ∧ round2 q ≤ 100 := by
  have h := round2_mem_Icc (show (0 : ℚ) = ((0 : ℤ) : ℚ) / 100 by norm_num)
    (show (100 : ℚ) = ((10000 : ℤ) : ℚ) / 100 by norm_num) h1 h2
  exact h

/- ═══════════════════════ claim theorems ═══════════════════════ -/

/-- C4: for every input series, `compute_kd` keeps both smoothed lines inside
`[0, 100]` at every bar: the RSV series is clipped to `[0, 100]` (with NaN
fallback 50), the K/D recurrences are convex combinations seeded at 50, and
rounding to two decimals cannot leave the interval. -/
theorem kd_in_range (df : List Bar) (period t : ℕ) (hp : 1 ≤ period)
    (ht : t < df.length) :
    (0 ≤ k_val df period t ∧ k_val df period t ≤ 100) ∧
    (0 ≤ d_val df period t ∧ d_val df period t ≤ 100) := by
  have hk := kRaw_mem df period t
  have hd := dRaw_mem df period t
  unfold k_val d_val
  exact ⟨round2_mem_0_100 hk.1 hk.2, round2_mem_0_100 hd.1 hd.2⟩

theorem kd_in_range_witness :
    (1 ≤ 9 ∧ 2 < dfKD.length) ∧
    ((0 ≤ k_val dfKD 9 2 ∧ k_val dfKD 9 2 ≤ 100) ∧
     (0 ≤ d_val dfKD 9 2 ∧ d_val dfKD 9 2 ≤ 100)) :=
  ⟨⟨by norm_num, by decide⟩, kd_in_range dfKD 9 2 (by norm_num) (by decide)⟩

/-- C5: when the 9-bar rolling maximum high equals the rolling minimum low
(zero-width range), `compute_kd` does not divide by zero — the denominator is
sent to NaN via `replace(0, None)` and `fillna(50)` makes RSV of that bar 50,
which is exactly the value the K recurrence then consumes. -/
theorem kd_zero_range_rsv (df : List Bar) (j : ℕ) (v : ℚ)
    (hlo : rollingMin (df.map (·.low)) 9 (j + 1) = some v)
    (hhi : rollingMax (df.map (·.high)) 9 (j + 1) = some v) :
    rsv df 9 (j + 1) = 50 ∧
    kRaw df 9 (j + 1) = 2 / 3 * kRaw df 9 j + 1 / 3 * 50 := by
  have h5 : rsv df 9 (j + 1) = 50 := by
    unfold rsv
    rw [hlo, hhi]
    simp
  refine ⟨h5, ?_⟩
  have : kRaw df 9 (j + 1) = 2 / 3 * kRaw df 9 j + 1 / 3 * rsv df 9 (j + 1) := rfl
  rw [this, h5]

theorem kd_zero_range_rsv_witness :
    (rollingMin (dfFlat.map (·.low)) 9 8 = some 5 ∧
     rollingMax (dfFlat.map (·.high)) 9 8 = some 5) ∧
    (rsv dfFlat 9 8 = 50 ∧
     kRaw dfFlat 9 8 = 2 / 3 * kRaw dfFlat 9 7 + 1 / 3 * 50) :=
  ⟨⟨by decide, by decide⟩, kd_zero_range_rsv dfFlat 7 5 (by decide) (by decide)⟩

/-- C6: the consolidation-breakout strategy matches only with today's close
strictly above the box high and yesterday's close at or below it; a close
exactly equal to the box high, or a yesterday already above it, is never a
match.  (`2 ≤ n` keeps the box nonempty, as in every parameterisation the
page offers.) -/
theorem breakout_first_bar_only (df : List Bar) (n : ℕ) (amp vr : ℚ) (chk : Bool)
    (hn : 2 ≤ n) :
    (∀ m, check_consolidation_breakout df n amp vr chk = some m →
       boxHighOf df n < (todayBar df n).close ∧
       (yesterdayBar df n).close ≤ boxHighOf df n) ∧
    ((todayBar df n).close = boxHighOf df n →
       check_consolidation_breakout df n amp vr chk = none) ∧
    (boxHighOf df n < (yesterdayBar df n).close →
       check_consolidation_breakout df n amp vr chk = none) := by
  refine ⟨?_, ?_, ?_⟩
  · intro m h
    unfold check_consolidation_breakout at h
    split_ifs at h with h1 h2 h3 h4 h5 <;>
      exact ⟨lt_of_not_le h3, le_of_not_lt h4⟩
  · intro heq
    unfold check_consolidation_breakout
    split_ifs with h1 h2 h3 h4 h5 <;> first | rfl | exact absurd (le_of_eq heq) h3
  · intro hgt
    unfold check_consolidation_breakout
    split_ifs with h1 h2 h3 h4 h5 <;> first | rfl | exact absurd hgt h4

theorem breakout_first_bar_only_witness :
    2 ≤ 21 ∧ (todayBar dfTie 21).close = boxHighOf dfTie 21 ∧
    check_consolidation_breakout dfTie 21 (1 / 10) (3 / 2) true = none :=
  ⟨by norm_num, by decide,
   (breakout_first_bar_only dfTie 21 (1 / 10) (3 / 2) true (by norm_num)).2.1
     (by decide)⟩

theorem breakout_isSome_iff (df : List Bar) (n : ℕ) (amp vr : ℚ) (chk : Bool) :
    (check_consolidation_breakout df n amp vr chk).isSome = true ↔
      (n + 1 ≤ df.length ∧ amplitudeOf df n < amp ∧
       boxHighOf df n < (todayBar df n).close ∧
       (yesterdayBar df n).close ≤ boxHighOf df n ∧
       ¬(chk = true ∧ (todayBar df n).volume < avg5dVolumeOf df n * vr)) := by
  unfold check_consolidation_breakout
  split_ifs with h1 h2 h3 h4 h5 h6 <;>
    simp only [Option.isSome_none, Option.isSome_some, Bool.false_eq_true, false_iff,
      true_iff]
  · rintro ⟨hlen, -, -, -, -⟩
    omega
  · rintro ⟨-, hlt, -, -, -⟩
    linarith
  · rintro ⟨-, -, hlt, -, -⟩
    linarith
  · rintro ⟨-, -, -, hle, -⟩
    linarith
  · rintro ⟨-, -, -, -, hn5⟩
    exact hn5 h5
  · exact ⟨le_of_not_lt h1, lt_of_not_ge h2, lt_of_not_le h3, le_of_not_lt h4, h5⟩
  · exact ⟨le_of_not_lt h1, lt_of_not_ge h2, lt_of_not_le h3, le_of_not_lt h4, h5⟩

theorem surge_isSome_iff (df : List Bar) (vr bp : ℚ) :
    (check_volume_surge_bullish df vr bp).isSome = true ↔
      (6 ≤ df.length ∧ 0 < surgeAvgVol df ∧
       surgeAvgVol df * vr ≤ (lastBar df).volume ∧
       bp < surgeBodyR df ∧ maxClose5 df ≤ (lastBar df).close) := by
  unfold check_volume_surge_bullish
  split_ifs with h1 h2 h3 h4 h5 <;>
    simp only [Option.isSome_none, Option.isSome_some, Bool.false_eq_true, false_iff,
      true_iff]
  · rintro ⟨hlen, -, -, -, -⟩
    omega
  · rintro ⟨-, hpos, -, -, -⟩
    linarith
  · rintro ⟨-, -, hle, -, -⟩
    linarith
  · rintro ⟨-, -, -, hlt, -⟩
    linarith
  · rintro ⟨-, -, -, -, hle⟩
    linarith
  · exact ⟨le_of_not_lt h1, lt_of_not_le h2, le_of_not_lt h3, lt_of_not_le h4,
      le_of_not_lt h5⟩

theorem oversold_isSome_iff (df : List Bar) (bt sr : ℚ) :
    (check_oversold_reversal df bt sr).isSome = true ↔
      (21 ≤ df.length ∧ (maLast df 20).isSome = true ∧ ovBias df < bt ∧
       (lastBar df).open_ < (lastBar df).close ∧ 0 < ovBody df ∧
       ovBody df * sr ≤ ovShadow df) := by
  unfold check_oversold_reversal
  split_ifs with h1 h2 h3 h4 h5 <;>
    simp only [Option.isSome_none, Option.isSome_some, Bool.false_eq_true, false_iff,
      true_iff]
  · rintro ⟨hlen, -, -, -, -, -⟩
    omega
  · rintro ⟨-, hs, -, -, -, -⟩
    rw [Option.isNone_iff_eq_none] at h2
    rw [h2] at hs
    simp at hs
  · rintro ⟨-, -, hlt, -, -, -⟩
    linarith
  · rintro ⟨-, -, -, hlt, -, -⟩
    linarith
  · rintro ⟨-, -, -, -, hb, hsh⟩
    rcases h5 with h5 | h5
    · linarith
    · linarith
  · refine ⟨le_of_not_lt h1, ?_, lt_of_not_ge h3, lt_of_not_le h4, ?_, ?_⟩
    · cases hma : maLast df 20 with
      | none => exact absurd (by rw [hma]; rfl) h2
      | some v => rfl
    · push_neg at h5
      linarith [h5.1]
    · push_neg at h5
      exact h5.2

theorem avg5dVolume_nonneg (df : List Bar) (n : ℕ)
    (h : ∀ b ∈ df, 0 ≤ b.volume) : 0 ≤ avg5dVolumeOf df n := by
  apply listMean_nonneg
  intro x hx
  rcases List.mem_map.mp hx with ⟨b, hb, rfl⟩
  apply h
  have h1 : b ∈ boxOf df n := List.drop_subset _ _ hb
  have h2 : b ∈ recentOf df n := List.take_subset _ _ h1
  exact List.drop_subset _ _ h2

/-- C7: for each tunable screener strategy, tightening a single parameter
with everything else fixed — raising `volume_ratio` (breakout or surge),
lowering `amplitude_threshold`, raising `body_pct`, lowering (deepening)
`bias_threshold`, raising `shadow_ratio` — can never turn a no-match into a
match: every match under the tighter setting is a match under the looser
one.  (`2 ≤ n` keeps the breakout box nonempty; nonnegative volumes are the
Bar data-model invariant the breakout volume test needs.) -/
theorem screener_param_monotonicity (df : List Bar) (n : ℕ)
    (amp amp' vr vr' bp bp' bt bt' sr sr' : ℚ) (chk : Bool)
    (hn : 2 ≤ n) (hvol : ∀ b ∈ df, 0 ≤ b.volume)
    (hvr : vr ≤ vr') (hamp : amp' ≤ amp) (hbp : bp ≤ bp') (hbt : bt' ≤ bt)
    (hsr : sr ≤ sr') :
    ((check_consolidation_breakout df n amp vr' chk).isSome = true →
     (check_consolidation_breakout df n amp vr chk).isSome = true) ∧
    ((check_consolidation_breakout df n amp' vr chk).isSome = true →
     (check_consolidation_breakout df n amp vr chk).isSome = true) ∧
    ((check_volume_surge_bullish df vr' bp).isSome = true →
     (check_volume_surge_bullish df vr bp).isSome = true) ∧
    ((check_volume_surge_bullish df vr bp').isSome = true →
     (check_volume_surge_bullish df vr bp).isSome = true) ∧
    ((check_oversold_reversal df bt' sr).isSome = true →
     (check_oversold_reversal df bt sr).isSome = true) ∧
    ((check_oversold_reversal df bt sr').isSome = true →
     (check_oversold_reversal df bt sr).isSome = true) := by
  have havg := avg5dVolume_nonneg df n hvol
  refine ⟨?_, ?_, ?_, ?_, ?_, ?_⟩
  · rw [breakout_isSome_iff, breakout_isSome_iff]
    rintro ⟨a, b, c, d, e⟩
    refine ⟨a, b, c, d, ?_⟩
    rintro ⟨hchk, hlt⟩
    exact e ⟨hchk, lt_of_lt_of_le hlt (mul_le_mul_of_nonneg_left hvr havg)⟩
  · rw [breakout_isSome_iff, breakout_isSome_iff]
    rintro ⟨a, b, c, d, e⟩
    exact ⟨a, lt_of_lt_of_le b hamp, c, d, e⟩
  · rw [surge_isSome_iff, surge_isSome_iff]
    rintro ⟨a, b, c, d, e⟩
    refine ⟨a, b, le_trans (mul_le_mul_of_nonneg_left hvr (le_of_lt b)) c, d, e⟩
  · rw [surge_isSome_iff, surge_isSome_iff]
    rintro ⟨a, b, c, d, e⟩
    exact ⟨a, b, c, lt_of_le_of_lt hbp d, e⟩
  · rw [oversold_isSome_iff, oversold_isSome_iff]
    rintro ⟨a, b, c, d, e, f⟩
    exact ⟨a, b, lt_of_lt_of_le c hbt, d, e, f⟩
  · rw [oversold_isSome_iff, oversold_isSome_iff]
    rintro ⟨a, b, c, d, e, f⟩
    exact ⟨a, b, c, d, e, le_trans (mul_le_mul_of_nonneg_left hsr (le_of_lt e)) f⟩

theorem screener_param_monotonicity_witness :
    (2 ≤ 21 ∧ (3 : ℚ) / 2 ≤ 2 ∧ (1 : ℚ) / 20 ≤ 1 / 10 ∧ (3 : ℚ) / 100 ≤ 1 / 25 ∧
     (-1 : ℚ) / 5 ≤ -1 / 10 ∧ (3 : ℚ) / 10 ≤ 1 / 2) ∧
    ((check_consolidation_breakout dfBreak 21 (1 / 10) 2 true).isSome = true →
     (check_consolidation_breakout dfBreak 21 (1 / 10) (3 / 2) true).isSome = true) ∧
    ((check_consolidation_breakout dfBreak 21 (1 / 20) (3 / 2) true).isSome = true →
     (check_consolidation_breakout dfBreak 21 (1 / 10) (3 / 2) true).isSome = true) ∧
    ((check_volume_surge_bullish dfBreak 2 (3 / 100)).isSome = true →
     (check_volume_surge_bullish dfBreak (3 / 2) (3 / 100)).isSome = true) ∧
    ((check_volume_surge_bullish dfBreak (3 / 2) (1 / 25)).isSome = true →
     (check_volume_surge_bullish dfBreak (3 / 2) (3 / 100)).isSome = true) ∧
    ((check_oversold_reversal dfBreak (-1 / 5) (3 / 10)).isSome = true →
     (check_oversold_reversal dfBreak (-1 / 10) (3 / 10)).isSome = true) ∧
    ((check_oversold_reversal dfBreak (-1 / 10) (1 / 2)).isSome = true →
     (check_oversold_reversal dfBreak (-1 / 10) (3 / 10)).isSome = true) :=
  ⟨⟨by norm_num, by norm_num, by norm_num, by norm_num, by norm_num, by norm_num⟩,
   screener_param_monotonicity dfBreak 21 (1 / 10) (1 / 20) (3 / 2) 2 (3 / 100)
     (1 / 25) (-1 / 10) (-1 / 5) (3 / 10) (1 / 2) true (by norm_num) (by decide)
     (by norm_num) (by norm_num) (by norm_num) (by norm_num) (by norm_num)⟩

theorem scanGo_spec {α : Type} (fetch : String → FetchResult)
    (strategy_fn : List Bar → Option α) (total : ℕ) :
    ∀ (i : ℕ) (symbols : List String),
    (scanGo fetch strategy_fn total i symbols).results =
      symbols.filterMap (matchEntryOf fetch strategy_fn) ∧
    (scanGo fetch strategy_fn total i symbols).errors =
      symbols.filterMap (errorEntryOf fetch) := by
  intro i symbols
  induction symbols generalizing i with
  | nil => exact ⟨rfl, rfl⟩
  | cons s rest ih =>
      obtain ⟨hr, he⟩ := ih (i + 1)
      unfold scanGo
      cases hf : fetch s with
      | raises m =>
          simp [matchEntryOf, errorEntryOf, hf, hr, he]
      | data df =>
          by_cases hemp : df.isEmpty
          · simp [matchEntryOf, errorEntryOf, hf, hemp, hr, he]
          · cases hs : strategy_fn df with
            | none => simp [matchEntryOf, errorEntryOf, hf, hemp, hs, hr, he]
            | some hit => simp [matchEntryOf, errorEntryOf, hf, hemp, hs, hr, he]

theorem errorEntryOf_of_not_raises (fetch : String → FetchResult) (s : String)
    (h : (fetch s).isRaises = false) :
    errorEntryOf fetch s = noDataEntryOf fetch s := by
  cases hf : fetch s with
  | raises m => rw [hf] at h; simp [FetchResult.isRaises] at h
  | data df => simp [errorEntryOf, noDataEntryOf, hf]

/-- C3: with exactly one symbol whose fetch raises, the scan completes the
whole batch: the strategy outcome is collected for every other symbol, the
failing symbol contributes exactly one error record carrying the exception
message truncated to 80 characters, empty fetches are classified as distinct
«no data» (查無資料) error entries, and both returned lists preserve the
input symbol order. -/
theorem scan_watchlist_isolation {α : Type} (pre post : List String) (k msg : String)
    (fetch : String → FetchResult) (strategy_fn : List Bar → Option α)
    (hk : fetch k = FetchResult.raises msg)
    (hpre : ∀ s ∈ pre, (fetch s).isRaises = false)
    (hpost : ∀ s ∈ post, (fetch s).isRaises = false) :
    (scan_watchlist (pre ++ k :: post) strategy_fn fetch).results =
      pre.filterMap (matchEntryOf fetch strategy_fn) ++
      post.filterMap (matchEntryOf fetch strategy_fn) ∧
    (scan_watchlist (pre ++ k :: post) strategy_fn fetch).errors =
      pre.filterMap (noDataEntryOf fetch) ++
      ⟨k, msg.take 80⟩ :: post.filterMap (noDataEntryOf fetch) := by
  obtain ⟨hr, he⟩ :=
    scanGo_spec fetch strategy_fn (pre ++ k :: post).length 0 (pre ++ k :: post)
  constructor
  · rw [scan_watchlist, hr, List.filterMap_append, List.filterMap_cons]
    simp [matchEntryOf, hk]
  · rw [scan_watchlist, he, List.filterMap_append, List.filterMap_cons]
    have h1 : pre.filterMap (errorEntryOf fetch) = pre.filterMap (noDataEntryOf fetch) :=
      List.filterMap_congr (fun s hs => errorEntryOf_of_not_raises fetch s (hpre s hs))
    have h2 : post.filterMap (errorEntryOf fetch) = post.filterMap (noDataEntryOf fetch) :=
      List.filterMap_congr (fun s hs => errorEntryOf_of_not_raises fetch s (hpost s hs))
    rw [h1, h2]
    simp [errorEntryOf, hk]

theorem scan_watchlist_isolation_witness :
    (fetchW "9999" = FetchResult.raises msgW ∧
     (∀ s ∈ ["2330"], (fetchW s).isRaises = false) ∧
     (∀ s ∈ ["0050"], (fetchW s).isRaises = false)) ∧
    ((scan_watchlist (["2330"] ++ "9999" :: ["0050"]) stratW fetchW).results =
      ["2330"].filterMap (matchEntryOf fetchW stratW) ++
      ["0050"].filterMap (matchEntryOf fetchW stratW) ∧
     (scan_watchlist (["2330"] ++ "9999" :: ["0050"]) stratW fetchW).errors =
      ["2330"].filterMap (noDataEntryOf fetchW) ++
      ⟨"9999", msgW.take 80⟩ :: ["0050"].filterMap (noDataEntryOf fetchW)) :=
  ⟨⟨by decide, by decide, by decide⟩,
   scan_watchlist_isolation ["2330"] ["0050"] "9999" msgW fetchW stratW
     (by decide) (by decide) (by decide)⟩

/-- C10: scanning an empty watchlist returns two empty collections and never
invokes either callback — the loop body, including the `(i + 1) / total`
progress fraction with `total = 0`, is never evaluated, so no division by
zero can occur. -/
theorem scan_watchlist_empty {α : Type} (strategy_fn : List Bar → Option α)
    (fetch : String → FetchResult) :
    scan_watchlist ([] : List String) strategy_fn fetch =
      ⟨[], [], [], []⟩ := rfl

/-- C2, counterexample to the claim as stated: for the 6-bar series with
closes 1..6 and a display window of 5, the reported period-5 deduction price
is the close at position `len − 5` (= 2, i.e. `close.iloc[-5]`), not the
close at position `last − 5` = `(len − 1) − 5` (= 1) that the claim's
"position last − N" / "N-day-old close" wording denotes. -/
theorem deduction_price_counterexample :
    ∃ l, (calculate_deduction_values df6C2 5).2 = some l ∧
      ∃ e ∈ l, e.period = 5 ∧
        e.deduction_price = closeAt df6C2 (df6C2.length - 5) ∧
        e.deduction_price ≠ closeAt df6C2 ((df6C2.length - 1) - 5) := by
  have hma : maLast df6C2 5 = some 4 := by
    norm_num [maLast, rollingMean, windowEnd, listMean, closesOf, df6C2]
  have hlen : df6C2.length = 6 := by decide
  have hemp : df6C2.isEmpty = false := by decide
  have hc5 : closeAt df6C2 5 = 6 := by norm_num [closeAt, closesOf, df6C2]
  have hc1 : closeAt df6C2 1 = 2 := by norm_num [closeAt, closesOf, df6C2]
  have hentry : dedSummaryEntry df6C2 ⟨5, "5MA", "周線"⟩ =
      some ⟨5, "5MA", "周線", 4, 6, 2, 200, "📈 易漲支撐", "#EF5350"⟩ := by
    norm_num [dedSummaryEntry, hma, hlen, hc5, hc1, deduction_trend, round2, pyRoundInt]
  have hfm : List.filterMap (dedSummaryEntry df6C2)
      [(⟨5, "5MA", "周線"⟩ : DedConfig)] =
      [⟨5, "5MA", "周線", 4, 6, 2, 200, "📈 易漲支撐", "#EF5350"⟩] := by
    rw [List.filterMap_cons, hentry]
    simp
  have hsum : (calculate_deduction_values df6C2 5).2 =
      some [⟨5, "5MA", "周線", 4, 6, 2, 200, "📈 易漲支撐", "#EF5350"⟩] := by
    norm_num [calculate_deduction_values, maConfigsOf, ALL_CONFIGS, hfm, hlen, hemp]
  refine ⟨_, hsum, _, List.mem_singleton.mpr rfl, rfl, ?_, ?_⟩
  · norm_num [closeAt, closesOf, df6C2]
  · norm_num [closeAt, closesOf, df6C2]

/-- C2, amended: for every series with at least `N` bars and a display window
at least `N` (N ∈ {5,10,20,60}), the deduction summary for period `N`
reports the deduction price `close.iloc[-N]` — the close at position
`length − N`, the (N−1)-bars-ago value about to roll out of tomorrow's
window — rounded to two decimals, and a bias percentage of
`(current close − deduction price) / deduction price × 100` (rounded); the
Mode A deduction-pressure test compares the same `iloc[-N]` close against
the current close. -/
theorem deduction_price_amended (df : List Bar) (display_limit p : ℕ)
    (hp : p = 5 ∨ p = 10 ∨ p = 20 ∨ p = 60)
    (hd : p ≤ display_limit) (hl : p ≤ df.length) :
    ∃ l, (calculate_deduction_values df display_limit).2 = some l ∧
      ∃ e ∈ l, e.period = p ∧
        e.deduction_price = round2 (closeAt df (df.length - p)) ∧
        e.diff_pct = round2 ((closeAt df (df.length - 1) - closeAt df (df.length - p)) /
          closeAt df (df.length - p) * 100) ∧
        (p + 1 ≤ df.length →
          has_deduction_pressure df p =
            decide (closeAt df (df.length - p) > closeAt df (df.length - 1))) := by
  have hp0 : 0 < p := by rcases hp with rfl | rfl | rfl | rfl <;> norm_num
  have hlen0 : 0 < df.length := lt_of_lt_of_le hp0 hl
  have hma : maLast df p =
      some (listMean (windowEnd (closesOf df) p (df.length - 1))) := by
    unfold maLast rollingMean
    rw [if_pos]
    refine ⟨hp0, by omega, ?_⟩
    simp only [closesOf, List.length_map]
    omega
  obtain ⟨c, hcall, hcp⟩ : ∃ c ∈ ALL_CONFIGS, c.period = p := by
    rcases hp with rfl | rfl | rfl | rfl
    · exact ⟨⟨5, "5MA", "周線"⟩, by simp [ALL_CONFIGS], rfl⟩
    · exact ⟨⟨10, "10MA", "雙周線"⟩, by simp [ALL_CONFIGS], rfl⟩
    · exact ⟨⟨20, "20MA", "月線"⟩, by simp [ALL_CONFIGS], rfl⟩
    · exact ⟨⟨60, "60MA", "季線"⟩, by simp [ALL_CONFIGS], rfl⟩
  have hcfg : c ∈ maConfigsOf df display_limit := by
    apply List.mem_filter.mpr
    refine ⟨hcall, ?_⟩
    simp only [hcp, decide_eq_true_eq]
    exact ⟨hd, hl⟩
  have hentry : dedSummaryEntry df c = some {
      period := c.period
      ma_name := c.ma_name
      subtitle := c.subtitle
      ma_val := round2 (listMean (windowEnd (closesOf df) p (df.length - 1)))
      current_close := round2 (closeAt df (df.length - 1))
      deduction_price := round2 (closeAt df (df.length - c.period))
      diff_pct := round2 ((closeAt df (df.length - 1) - closeAt df (df.length - c.period)) /
        closeAt df (df.length - c.period) * 100)
      trend := (deduction_trend ((closeAt df (df.length - 1) - closeAt df (df.length - c.period)) /
        closeAt df (df.length - c.period))).1
      trend_color := (deduction_trend ((closeAt df (df.length - 1) - closeAt df (df.length - c.period)) /
        closeAt df (df.length - c.period))).2 } := by
    unfold dedSummaryEntry
    rw [hcp, hma]
  have hmem : (dedSummaryEntry df c).getD default ∈
      (maConfigsOf df display_limit).filterMap (dedSummaryEntry df) := by
    apply List.mem_filterMap.mpr
    exact ⟨c, hcfg, by rw [hentry]; rfl⟩
  have hne : ((maConfigsOf df display_limit).filterMap (dedSummaryEntry df)).isEmpty = false := by
    rcases hfm : (maConfigsOf df display_limit).filterMap (dedSummaryEntry df) with _ | ⟨a, l⟩
    · rw [hfm] at hmem
      cases hmem
    · rfl
  have hguard : ¬(df.isEmpty = true ∨ (maConfigsOf df display_limit).isEmpty = true) := by
    rintro (hg | hg)
    · rcases df with _ | ⟨b, rest⟩
      · simp at hlen0
      · cases hg
    · rcases hcf : maConfigsOf df display_limit with _ | ⟨a, l⟩
      · rw [hcf] at hcfg
        cases hcfg
      · rw [hcf] at hg
        cases hg
  refine ⟨(maConfigsOf df display_limit).filterMap (dedSummaryEntry df), ?_, ?_⟩
  · simp only [calculate_deduction_values]
    rw [if_neg hguard]
    simp only [hne, Bool.false_eq_true, if_false]
  · refine ⟨(dedSummaryEntry df c).getD default, hmem, ?_, ?_, ?_, ?_⟩
    · rw [hentry, hcp]
      rfl
    · rw [hentry, hcp]
      rfl
    · rw [hentry, hcp]
      rfl
    · intro hlen1
      unfold has_deduction_pressure
      rw [if_neg (by omega)]

theorem deduction_price_amended_witness :
    ((5 = 5 ∨ 5 = 10 ∨ 5 = 20 ∨ 5 = 60) ∧ 5 ≤ 5 ∧ 5 ≤ df6C2.length) ∧
    (∃ l, (calculate_deduction_values df6C2 5).2 = some l ∧
      ∃ e ∈ l, e.period = 5 ∧
        e.deduction_price = round2 (closeAt df6C2 (df6C2.length - 5)) ∧
        e.diff_pct = round2 ((closeAt df6C2 (df6C2.length - 1) - closeAt df6C2 (df6C2.length - 5)) /
          closeAt df6C2 (df6C2.length - 5) * 100) ∧
        (5 + 1 ≤ df6C2.length →
          has_deduction_pressure df6C2 5 =
            decide (closeAt df6C2 (df6C2.length - 5) > closeAt df6C2 (df6C2.length - 1)))) :=
  ⟨⟨Or.inl rfl, by norm_num, by decide⟩,
   deduction_price_amended df6C2 5 5 (Or.inl rfl) (by norm_num) (by decide)⟩

theorem abovePts_bounds (c m : Option ℚ) : 0 ≤ abovePts c m ∧ abovePts c m ≤ 10 := by
  unfold abovePts
  split <;> norm_num

theorem dedPtsA_bounds (pc : ℕ) : 0 ≤ (dedPtsA pc).1 ∧ (dedPtsA pc).1 ≤ 10 := by
  unfold dedPtsA
  split_ifs <;> norm_num

theorem rsiPtsA_bounds (r : Option ℚ) : 0 ≤ (rsiPtsA r).1 ∧ (rsiPtsA r).1 ≤ 15 := by
  cases r with
  | none => norm_num [rsiPtsA]
  | some v =>
      simp only [rsiPtsA]
      split_ifs <;> norm_num

theorem histPtsA_bounds (h : Option ℚ) : 0 ≤ (histPtsA h).1 ∧ (histPtsA h).1 ≤ 15 := by
  cases h with
  | none => norm_num [histPtsA]
  | some v =>
      simp only [histPtsA]
      split_ifs <;> norm_num

theorem volPtsA_bounds (v a : Option ℚ) : 0 ≤ (volPtsA v a).1 ∧ (volPtsA v a).1 ≤ 30 := by
  cases v with
  | none => norm_num [volPtsA]
  | some v0 =>
      cases a with
      | none => norm_num [volPtsA]
      | some a0 =>
          simp only [volPtsA]
          split_ifs <;> norm_num

theorem rsiPtsG_bounds (r : Option ℚ) : 0 ≤ (rsiPtsG r).1 ∧ (rsiPtsG r).1 ≤ 15 := by
  cases r with
  | none => norm_num [rsiPtsG]
  | some v =>
      simp only [rsiPtsG]
      split_ifs <;> norm_num

theorem kdPtsG_bounds (k d : Option ℚ) : 0 ≤ (kdPtsG k d).1 ∧ (kdPtsG k d).1 ≤ 15 := by
  cases k with
  | none => norm_num [kdPtsG]
  | some k0 =>
      cases d with
      | none => norm_num [kdPtsG]
      | some d0 =>
          simp only [kdPtsG]
          split_ifs <;> norm_num

theorem histPtsG_bounds (h : Option ℚ) : 0 ≤ (histPtsG h).1 ∧ (histPtsG h).1 ≤ 10 := by
  cases h with
  | none => norm_num [histPtsG]
  | some v =>
      simp only [histPtsG]
      split_ifs <;> norm_num

theorem crossPtsG_bounds (f s : Option ℚ) : 0 ≤ (crossPtsG f s).1 ∧ (crossPtsG f s).1 ≤ 10 := by
  cases f with
  | none => norm_num [crossPtsG]
  | some f0 =>
      cases s with
      | none => norm_num [crossPtsG]
      | some s0 =>
          simp only [crossPtsG]
          split_ifs <;> norm_num

theorem volPtsG_bounds (v a : Option ℚ) : 0 ≤ (volPtsG v a).1 ∧ (volPtsG v a).1 ≤ 20 := by
  cases v with
  | none => norm_num [volPtsG]
  | some v0 =>
      cases a with
      | none => norm_num [volPtsG]
      | some a0 =>
          simp only [volPtsG]
          split_ifs <;> norm_num

theorem pricePtsB_bounds (c m60 m240 : Option ℚ) :
    0 ≤ (pricePtsB c m60 m240).1 ∧ (pricePtsB c m60 m240).1 ≤ 40 := by
  cases c with
  | none => norm_num [pricePtsB]
  | some c0 =>
      cases m60 with
      | none => norm_num [pricePtsB]
      | some m0 =>
          cases m240 <;> simp only [pricePtsB] <;> split_ifs <;> norm_num

theorem rsiPtsB_bounds (r : Option ℚ) : 0 ≤ (rsiPtsB r).1 ∧ (rsiPtsB r).1 ≤ 20 := by
  cases r with
  | none => norm_num [rsiPtsB]
  | some v =>
      simp only [rsiPtsB]
      split_ifs <;> norm_num

theorem biasPtsB_bounds (c m : Option ℚ) : 0 ≤ (biasPtsB c m).1 ∧ (biasPtsB c m).1 ≤ 20 := by
  cases c with
  | none => norm_num [biasPtsB]
  | some c0 =>
      cases m with
      | none => norm_num [biasPtsB]
      | some m0 =>
          simp only [biasPtsB]
          split_ifs <;> norm_num

theorem kdPtsB_bounds (k d : Option ℚ) : 0 ≤ (kdPtsB k d).1 ∧ (kdPtsB k d).1 ≤ 20 := by
  cases k with
  | none => norm_num [kdPtsB]
  | some k0 =>
      cases d with
      | none => norm_num [kdPtsB]
      | some d0 =>
          simp only [kdPtsB]
          split_ifs <;> norm_num

theorem trendScoreA_bounds (df : List Bar) : 0 ≤ trendScoreA df ∧ trendScoreA df ≤ 40 := by
  unfold trendScoreA
  obtain ⟨a1, a2⟩ := abovePts_bounds (lastCloseOf df) (maLast df 10)
  obtain ⟨b1, b2⟩ := abovePts_bounds (lastCloseOf df) (maLast df 20)
  obtain ⟨c1, c2⟩ := abovePts_bounds (lastCloseOf df) (maLast df 60)
  obtain ⟨d1, d2⟩ := dedPtsA_bounds (pressureCountA df)
  omega

theorem momentumScoreA_bounds (ta : TaInd) :
    0 ≤ momentumScoreA ta ∧ momentumScoreA ta ≤ 30 := by
  unfold momentumScoreA
  obtain ⟨a1, a2⟩ := rsiPtsA_bounds ta.rsi14
  obtain ⟨b1, b2⟩ := histPtsA_bounds ta.macd_hist
  omega

theorem volumeScoreA_bounds (df : List Bar) :
    0 ≤ volumeScoreA df ∧ volumeScoreA df ≤ 30 := by
  unfold volumeScoreA
  exact volPtsA_bounds _ _

theorem trendScoreG_bounds (df : List Bar) : 0 ≤ trendScoreG df ∧ trendScoreG df ≤ 30 := by
  unfold trendScoreG
  obtain ⟨a1, a2⟩ := abovePts_bounds (lastCloseOf df) (maLast df 10)
  obtain ⟨b1, b2⟩ := abovePts_bounds (lastCloseOf df) (maLast df 20)
  obtain ⟨c1, c2⟩ := abovePts_bounds (lastCloseOf df) (maLast df 60)
  omega

theorem momentumScoreG_bounds (ta : TaInd) :
    0 ≤ momentumScoreG ta ∧ momentumScoreG ta ≤ 30 := by
  unfold momentumScoreG
  obtain ⟨a1, a2⟩ := rsiPtsG_bounds ta.rsi14
  obtain ⟨b1, b2⟩ := kdPtsG_bounds ta.k_stoch ta.d_stoch
  omega

theorem oscillatorScoreG_bounds (ta : TaInd) :
    0 ≤ oscillatorScoreG ta ∧ oscillatorScoreG ta ≤ 20 := by
  unfold oscillatorScoreG
  obtain ⟨a1, a2⟩ := histPtsG_bounds ta.macd_hist
  obtain ⟨b1, b2⟩ := crossPtsG_bounds ta.macd_dif ta.macd_dea
  omega

theorem volumeScoreG_bounds (df : List Bar) :
    0 ≤ volumeScoreG df ∧ volumeScoreG df ≤ 20 := by
  unfold volumeScoreG
  exact volPtsG_bounds _ _

theorem priceLevelScoreB_bounds (df : List Bar) :
    0 ≤ priceLevelScoreB df ∧ priceLevelScoreB df ≤ 40 := by
  unfold priceLevelScoreB
  exact pricePtsB_bounds _ _ _

theorem oversoldScoreB_bounds (df : List Bar) (ta : TaInd) :
    0 ≤ oversoldScoreB df ta ∧ oversoldScoreB df ta ≤ 40 := by
  unfold oversoldScoreB
  obtain ⟨a1, a2⟩ := rsiPtsB_bounds ta.rsi14
  obtain ⟨b1, b2⟩ := biasPtsB_bounds (lastCloseOf df) (maLast df 60)
  omega

theorem ltBaselineScoreB_bounds (ta : TaInd) :
    0 ≤ ltBaselineScoreB ta ∧ ltBaselineScoreB ta ≤ 20 := by
  unfold ltBaselineScoreB
  exact kdPtsB_bounds _ _

theorem scoreInvB_of_three (mo : Option String) (k1 k2 k3 l1 l2 l3 : String)
    (ds : List DetailRow) (a b c m1 m2 m3 : ℤ)
    (hsum : m1 + m2 + m3 = 100)
    (ha : 0 ≤ a ∧ a ≤ m1) (hb : 0 ≤ b ∧ b ≤ m2) (hc : 0 ≤ c ∧ c ≤ m3) :
    scoreInvB ⟨a + b + c, mo,
      [(k1, ⟨a, m1, l1⟩), (k2, ⟨b, m2, l2⟩), (k3, ⟨c, m3, l3⟩)], ds⟩ = true := by
  obtain ⟨ha1, ha2⟩ := ha
  obtain ⟨hb1, hb2⟩ := hb
  obtain ⟨hc1, hc2⟩ := hc
  simp [scoreInvB]
  omega

theorem scoreInvB_of_four (mo : Option String) (k1 k2 k3 k4 l1 l2 l3 l4 : String)
    (ds : List DetailRow) (a b c d m1 m2 m3 m4 : ℤ)
    (hsum : m1 + m2 + m3 + m4 = 100)
    (ha : 0 ≤ a ∧ a ≤ m1) (hb : 0 ≤ b ∧ b ≤ m2) (hc : 0 ≤ c ∧ c ≤ m3)
    (hd : 0 ≤ d ∧ d ≤ m4) :
    scoreInvB ⟨a + b + c + d, mo,
      [(k1, ⟨a, m1, l1⟩), (k2, ⟨b, m2, l2⟩), (k3, ⟨c, m3, l3⟩), (k4, ⟨d, m4, l4⟩)],
      ds⟩ = true := by
  obtain ⟨ha1, ha2⟩ := ha
  obtain ⟨hb1, hb2⟩ := hb
  obtain ⟨hc1, hc2⟩ := hc
  obtain ⟨hd1, hd2⟩ := hd
  simp [scoreInvB]
  omega

/-- C1: whenever any of the three scoring models returns a Score Result, the
total equals the sum of the dimension scores, every dimension score is a
non-negative integer not exceeding its dimension maximum, the maxima sum to
exactly 100, and the total lies in [0, 100]. -/
theorem score_result_invariants (df : List Bar) (ta : TaInd) :
    (compute_score df ta).all scoreInvB = true ∧
    (compute_score_mode_a df ta).all scoreInvB = true ∧
    (compute_score_mode_b df ta).all scoreInvB = true := by
  refine ⟨?_, ?_, ?_⟩
  · unfold compute_score
    split
    · rfl
    · exact scoreInvB_of_four _ _ _ _ _ _ _ _ _ _ _ _ _ _ _ _ _ _ (by norm_num)
        (trendScoreG_bounds df) (momentumScoreG_bounds ta)
        (oscillatorScoreG_bounds ta) (volumeScoreG_bounds df)
  · unfold compute_score_mode_a
    split
    · rfl
    · exact scoreInvB_of_three _ _ _ _ _ _ _ _ _ _ _ _ _ _ (by norm_num)
        (trendScoreA_bounds df) (momentumScoreA_bounds ta) (volumeScoreA_bounds df)
  · unfold compute_score_mode_b
    split
    · rfl
    · exact scoreInvB_of_three _ _ _ _ _ _ _ _ _ _ _ _ _ _ (by norm_num)
        (priceLevelScoreB_bounds df) (oversoldScoreB_bounds df ta)
        (ltBaselineScoreB_bounds ta)

/-- C8: each scoring model returns `None` exactly when the series has fewer
than 65 bars (emptiness is subsumed by the length test); with 65 or more
bars a Score Result is always produced, and an individual `pandas_ta`
sub-indicator that cannot be computed (a `none` oracle reading) contributes
0 points to its dimension with the «insufficient data» (資料不足) verdict
instead of failing the model. -/
theorem insufficient_history_policy (df : List Bar) (ta : TaInd) :
    ((compute_score df ta = none ↔ df.length < 65) ∧
     (compute_score_mode_a df ta = none ↔ df.length < 65) ∧
     (compute_score_mode_b df ta = none ↔ df.length < 65)) ∧
    ((∀ r, compute_score df { ta with rsi14 := none } = some r →
        (r.details.getD 3 default).pts = 0 ∧
        (r.details.getD 3 default).verdict = "資料不足") ∧
     (∀ r, compute_score df { ta with k_stoch := none } = some r →
        (r.details.getD 4 default).pts = 0 ∧
        (r.details.getD 4 default).verdict = "資料不足") ∧
     (∀ r, compute_score df { ta with macd_hist := none } = some r →
        (r.details.getD 5 default).pts = 0 ∧
        (r.details.getD 5 default).verdict = "資料不足") ∧
     (∀ r, compute_score df { ta with macd_dif := none } = some r →
        (r.details.getD 6 default).pts = 0 ∧
        (r.details.getD 6 default).verdict = "資料不足")) ∧
    ((∀ r, compute_score_mode_a df { ta with rsi14 := none } = some r →
        (r.details.getD 4 default).pts = 0 ∧
        (r.details.getD 4 default).verdict = "資料不足") ∧
     (∀ r, compute_score_mode_a df { ta with macd_hist := none } = some r →
        (r.details.getD 5 default).pts = 0 ∧
        (r.details.getD 5 default).verdict = "資料不足")) ∧
    ((∀ r, compute_score_mode_b df { ta with rsi14 := none } = some r →
        (r.details.getD 1 default).pts = 0 ∧
        (r.details.getD 1 default).verdict = "資料不足") ∧
     (∀ r, compute_score_mode_b df { ta with k_stoch := none } = some r →
        (r.details.getD 3 default).pts = 0 ∧
        (r.details.getD 3 default).verdict = "資料不足")) := by
  refine ⟨⟨?_, ?_, ?_⟩, ⟨?_, ?_, ?_, ?_⟩, ⟨?_, ?_⟩, ⟨?_, ?_⟩⟩
  · unfold compute_score
    split
    · simp_all
    · simp_all
  · unfold compute_score_mode_a
    split
    · simp_all
    · simp_all
  · unfold compute_score_mode_b
    split
    · simp_all
    · simp_all
  · intro r h
    unfold compute_score at h
    split at h
    · exact absurd h (by simp)
    · obtain rfl := (Option.some.injEq _ _ ▸ h : _ = r)
      constructor <;> simp [detailsG, List.getD, rsiPtsG]
  · intro r h
    unfold compute_score at h
    split at h
    · exact absurd h (by simp)
    · obtain rfl := (Option.some.injEq _ _ ▸ h : _ = r)
      constructor <;> simp [detailsG, List.getD, kdPtsG]
  · intro r h
    unfold compute_score at h
    split at h
    · exact absurd h (by simp)
    · obtain rfl := (Option.some.injEq _ _ ▸ h : _ = r)
      constructor <;> simp [detailsG, List.getD, histPtsG]
  · intro r h
    unfold compute_score at h
    split at h
    · exact absurd h (by simp)
    · obtain rfl := (Option.some.injEq _ _ ▸ h : _ = r)
      constructor <;> simp [detailsG, List.getD, crossPtsG]
  · intro r h
    unfold compute_score_mode_a at h
    split at h
    · exact absurd h (by simp)
    · obtain rfl := (Option.some.injEq _ _ ▸ h : _ = r)
      constructor <;> simp [detailsA, List.getD, rsiPtsA]
  · intro r h
    unfold compute_score_mode_a at h
    split at h
    · exact absurd h (by simp)
    · obtain rfl := (Option.some.injEq _ _ ▸ h : _ = r)
      constructor <;> simp [detailsA, List.getD, histPtsA]
  · intro r h
    unfold compute_score_mode_b at h
    split at h
    · exact absurd h (by simp)
    · obtain rfl := (Option.some.injEq _ _ ▸ h : _ = r)
      constructor <;> simp [detailsB, List.getD, rsiPtsB]
  · intro r h
    unfold compute_score_mode_b at h
    split at h
    · exact absurd h (by simp)
    · obtain rfl := (Option.some.injEq _ _ ▸ h : _ = r)
      constructor <;> simp [detailsB, List.getD, kdPtsB]

theorem insufficient_history_policy_witness :
    (compute_score df65 taW ≠ none ∧ compute_score_mode_a df65 taW ≠ none ∧
     compute_score_mode_b df65 taW ≠ none) ∧
    ((scoreRG.details.getD 3 default).pts = 0 ∧
     (scoreRG.details.getD 3 default).verdict = "資料不足") ∧
    ((scoreRA.details.getD 4 default).pts = 0 ∧
     (scoreRA.details.getD 4 default).verdict = "資料不足") ∧
    ((scoreRB.details.getD 1 default).pts = 0 ∧
     (scoreRB.details.getD 1 default).verdict = "資料不足") := by
  have h := insufficient_history_policy df65 taW
  refine ⟨⟨?_, ?_, ?_⟩, ?_, ?_, ?_⟩
  · intro hnone
    exact absurd (h.1.1.mp hnone) (by decide)
  · intro hnone
    exact absurd (h.1.2.1.mp hnone) (by decide)
  · intro hnone
    exact absurd (h.1.2.2.mp hnone) (by decide)
  · exact h.2.1.1 scoreRG (by rfl)
  · exact h.2.2.1.1 scoreRA (by rfl)
  · exact h.2.2.2.1 scoreRB (by rfl)

theorem getD_set_ne {α : Type} (l : List α) (i j : ℕ) (a d : α) (h : j ≠ i) :
    (l.set i a).getD j d = l.getD j d := by
  induction l generalizing i j with
  | nil => simp
  | cons x xs ih =>
      cases i with
      | zero =>
          cases j with
          | zero => exact absurd rfl h
          | succ j0 => simp
      | succ i0 =>
          cases j with
          | zero => simp
          | succ j0 =>
              simp only [List.set_cons_succ, List.getD_cons_succ]
              exact ih i0 j0 (fun he => h (by rw [he]))

theorem frameAt_append (h : Heap) (fs : List Frame) (r : ℕ) (hr : r < h.length) :
    frameAt (h ++ fs) r = frameAt h r := by
  unfold frameAt
  induction h generalizing r with
  | nil => simp at hr
  | cons x xs ih =>
      cases r with
      | zero => simp
      | succ r0 =>
          simp only [List.cons_append, List.getD_cons_succ]
          exact ih r0 (by simpa using hr)

theorem frameAt_setCol_ne (h : Heap) (r2 : ℕ) (name : String) (col : List ColVal)
    (r : ℕ) (hne : r ≠ r2) : frameAt (setCol h r2 name col) r = frameAt h r := by
  unfold setCol frameAt
  exact getD_set_ne _ _ _ _ _ hne

theorem frameAt_writeCols_ne (cols : List (String × List ColVal)) (h : Heap)
    (r2 r : ℕ) (hne : r ≠ r2) : frameAt (writeCols h r2 cols) r = frameAt h r := by
  induction cols generalizing h with
  | nil => rfl
  | cons c cs ih =>
      unfold writeCols at ih ⊢
      rw [List.foldl_cons, ih (setCol h r2 c.1 c.2)]
      exact frameAt_setCol_ne h r2 c.1 c.2 r hne

/-- C9: under the reference-and-store semantics, every core computation —
`compute_ma`, `compute_kd`, each `check_*` screener predicate, each scoring
model, and `calculate_deduction_values` — leaves the caller's frame exactly
as it was: all derived columns are assigned only to the freshly allocated
working copy. -/
theorem core_preserves_caller_frame (h : Heap) (r : ℕ) (periods : List ℕ)
    (period n display_limit : ℕ) (amp vr bp bt sr : ℚ) (chk : Bool) (ta : TaInd)
    (hr : r < h.length) :
    frameAt (compute_ma_st h r periods).1 r = frameAt h r ∧
    frameAt (compute_kd_st h r period).1 r = frameAt h r ∧
    frameAt (check_consolidation_breakout_st h r n amp vr chk).1 r = frameAt h r ∧
    frameAt (check_bullish_ma_alignment_st h r).1 r = frameAt h r ∧
    frameAt (check_volume_surge_bullish_st h r vr bp).1 r = frameAt h r ∧
    frameAt (check_oversold_reversal_st h r bt sr).1 r = frameAt h r ∧
    frameAt (compute_score_st h r ta).1 r = frameAt h r ∧
    frameAt (compute_score_mode_a_st h r ta).1 r = frameAt h r ∧
    frameAt (compute_score_mode_b_st h r ta).1 r = frameAt h r ∧
    frameAt (calculate_deduction_values_st h r display_limit).1 r = frameAt h r := by
  refine ⟨?_, ?_, rfl, ?_, rfl, ?_, ?_, ?_, ?_, ?_⟩
  · simp only [compute_ma_st]
    rw [frameAt_writeCols_ne _ _ _ _ (show r ≠ h.length by omega)]
    exact frameAt_append _ _ _ hr
  · simp only [compute_kd_st]
    rw [frameAt_writeCols_ne _ _ _ _ (show r ≠ h.length by omega)]
    exact frameAt_append _ _ _ hr
  · simp only [check_bullish_ma_alignment_st]
    rw [frameAt_writeCols_ne _ _ _ _ (show r ≠ h.length by omega)]
    exact frameAt_append _ _ _ hr
  · simp only [check_oversold_reversal_st]
    rw [frameAt_writeCols_ne _ _ _ _ (show r ≠ h.length by omega)]
    exact frameAt_append _ _ _ hr
  · simp only [compute_score_st]
    rw [frameAt_writeCols_ne _ _ _ _ (show r ≠ h.length + 1 by omega)]
    exact frameAt_append _ _ _ hr
  · simp only [compute_score_mode_a_st]
    rw [frameAt_writeCols_ne _ _ _ _ (show r ≠ h.length + 1 by omega)]
    exact frameAt_append _ _ _ hr
  · simp only [compute_score_mode_b_st]
    rw [frameAt_writeCols_ne _ _ _ _ (show r ≠ h.length + 1 by omega)]
    exact frameAt_append _ _ _ hr
  · simp only [calculate_deduction_values_st]
    rw [frameAt_writeCols_ne _ _ _ _ (show r ≠ h.length + 1 by omega)]
    exact frameAt_append _ _ _ hr

theorem core_preserves_caller_frame_witness :
    0 < heapW.length ∧
    frameAt (compute_ma_st heapW 0 [5, 10]).1 0 = frameAt heapW 0 ∧
    frameAt (compute_kd_st heapW 0 9).1 0 = frameAt heapW 0 ∧
    frameAt (calculate_deduction_values_st heapW 0 10).1 0 = frameAt heapW 0 := by
  have h := core_preserves_caller_frame heapW 0 [5, 10] 9 21 10 (1 / 10) (3 / 2)
    (3 / 100) (-1 / 10) (3 / 10) true taW (by decide)
  exact ⟨by decide, h.1, h.2.1, h.2.2.2.2.2.2.2.2.2⟩
